import Mathlib

/-!
# Verification of the rustmeter tracing system

A shallow embedding of the rustmeter repository (target-side wire codec in
`rustmeter-beacon`, host-side stream decoder and reconstruction engine in
`rustmeter-cli`), together with theorems settling the specification claims.

Modelling conventions:
* machine integers are `Nat` (with explicit `% 2^w` where the code can wrap,
  and range hypotheses where the Rust type system enforces a width);
  signed sample values are `Int` serialized in two's complement;
* the fixed-capacity `BufferWriter` is a `List Nat` of bytes (capacity is a
  memory-safety concern only and does not affect byte values);
* the cursor `BufferReader` is the unread suffix of the byte list;
* the crossbeam trace-event channel is modelled by per-component output logs
  (an `out : List TracingEvent` field, `send` = append); the string-map
  `args` payloads of trace events are omitted where they are constant;
* `HashMap`s are association lists in insertion order (the reconstruction
  engine's `find` searches are only applied where the matching element is
  unique, so iteration order is immaterial for the claims considered);
* panics (`unwrap`, index out of range) are modelled with `Option`.
-/

namespace Rustmeter

namespace Beacon

/-! ## Byte buffer (rustmeter-beacon-core/src/buffer.rs)

`BufferReader::read_byte` and `BufferReader::read_bytes(2)` over the unread
suffix of the input slice. -/

/-- `BufferReader::read_byte`: next byte and remaining suffix, `none` on
exhaustion. -/
def readByte (bs : List Nat) : Option (Nat × List Nat) :=
  match bs with
  | [] => none
  | b :: rest => some (b, rest)

/-- `BufferReader::read_bytes(2)`: two bytes and the remaining suffix, `none`
if fewer than two bytes are available. -/
def readChunk2 (bs : List Nat) : Option ((Nat × Nat) × List Nat) :=
  match bs with
  | b0 :: b1 :: rest => some ((b0, b1), rest)
  | _ => none

/-- `u16::to_be_bytes`. -/
def u16_to_be_bytes (n : Nat) : List Nat :=
  [n / 2 ^ 8 % 256, n % 256]

/-- `u32::to_be_bytes`. -/
def u32_to_be_bytes (n : Nat) : List Nat :=
  [n / 2 ^ 24 % 256, n / 2 ^ 16 % 256, n / 2 ^ 8 % 256, n % 256]

/-- `u16::from_be_bytes`. -/
def u16_from_be_bytes (b0 b1 : Nat) : Nat :=
  b0 * 2 ^ 8 + b1

/-- `u32::from_be_bytes`. -/
def u32_from_be_bytes (b0 b1 b2 b3 : Nat) : Nat :=
  b0 * 2 ^ 24 + b1 * 2 ^ 16 + b2 * 2 ^ 8 + b3

/-! ## TimeDelta codec (rustmeter-beacon-core/src/time_delta.rs)

A `TimeDelta` is a `u32` microsecond delta, modelled by its value. -/

namespace TimeDelta

/-- `TimeDelta::is_extended`. -/
def is_extended (delta : Nat) : Bool :=
  2 ^ 15 ≤ delta

/-- `TimeDelta::write_bytes`. -/
def write_bytes (delta : Nat) : List Nat :=
  if is_extended delta then
    -- Cap value at 2^31 - 1
    let capped_delta := if delta > 2 ^ 31 - 1 then 2 ^ 31 - 1 else delta
    -- Use extended format (4 bytes), set highest bit to 1
    let extended_value := capped_delta ||| 0x80000000
    u32_to_be_bytes extended_value
  else
    -- Single format (2 bytes), highest bit is 0
    u16_to_be_bytes (delta &&& 0x7FFF)

/-- `TimeDelta::read_bytes`: detects single (2-byte) versus extended (4-byte)
format from the highest bit of the first byte. -/
def read_bytes (bs : List Nat) : Option (Nat × List Nat) := do
  let (first_byte, bs) ← readByte bs
  let (second_byte, bs) ← readByte bs
  if first_byte &&& 0x80 = 0 then
    -- Single format
    some (u16_from_be_bytes first_byte second_byte, bs)
  else
    -- Extended format, read additional 2 bytes and clear highest bit
    let ((b2, b3), bs) ← readChunk2 bs
    let extended_value := u32_from_be_bytes first_byte second_byte b2 b3
    some (extended_value &&& 0x7FFFFFFF, bs)

end TimeDelta

/-! ## Little-endian integer serialization

`uN::to_le_bytes` / `uN::from_le_bytes` and their signed (two's complement)
counterparts, as used by the protocol payloads. -/

/-- `uN::to_le_bytes` for a width of `w` bytes. -/
def nat_to_le_bytes (w : Nat) (n : Nat) : List Nat :=
  match w with
  | 0 => []
  | w' + 1 => n % 256 :: nat_to_le_bytes w' (n / 256)

/-- `uN::from_le_bytes`. -/
def nat_from_le_bytes (l : List Nat) : Nat :=
  match l with
  | [] => 0
  | b :: rest => b + nat_from_le_bytes rest * 256

/-- The two's complement bit pattern of a signed `w`-byte integer, as a `Nat`
(this is what `iN::to_le_bytes` serializes). -/
def int_to_2c (w : Nat) (v : Int) : Nat :=
  (v % ((2 : Int) ^ (8 * w))).toNat

/-- Reinterpret a `w`-byte unsigned value as a signed integer
(`iN::from_le_bytes`). -/
def int_from_2c (w : Nat) (r : Nat) : Int :=
  if r < 2 ^ (8 * w - 1) then (r : Int) else (r : Int) - 2 ^ (8 * w)

/-- The byte-by-byte read loop `for byte in data.iter_mut() { *byte =
buffer.read_byte()? }` filling an array of `w` bytes. -/
def readBytesN (w : Nat) (bs : List Nat) : Option (List Nat × List Nat) :=
  match w with
  | 0 => some ([], bs)
  | w' + 1 => do
    let (b, bs) ← readByte bs
    let (l, bs) ← readBytesN w' bs
    some (b :: l, bs)

/-- The null-terminated-string read loop of
`TypeDefinitionPayload::from_bytes`: bytes up to (excluding) the first `0`. -/
def readNullTerminated (bs : List Nat) : Option (List Nat × List Nat) :=
  match bs with
  | [] => none
  | b :: rest =>
    if b = 0 then some ([], rest)
    else do
      let (name, bs) ← readNullTerminated rest
      some (b :: name, bs)

/-! ## MonitorValuePayload (protocol/monitor_value_payload.rs)

Unsigned sample values are `Nat`, signed ones `Int` (serialized in two's
complement). Strings names are byte lists (`str::as_bytes`); the decoder's
`str::from_utf8` re-validation is the identity on every byte string produced
by the serializer and is therefore not re-modelled. -/

inductive MonitorValuePayload where
  | U8 (v : Nat)
  | U16 (v : Nat)
  | U32 (v : Nat)
  | U64 (v : Nat)
  | I8 (v : Int)
  | I16 (v : Int)
  | I32 (v : Int)
  | I64 (v : Int)
  deriving DecidableEq, Repr

namespace MonitorValuePayload

/-- `MonitorValuePayload::type_id` via `get_monitor_value_type_id`. -/
def type_id : MonitorValuePayload → Nat
  | U8 _ => 0
  | U16 _ => 1
  | U32 _ => 2
  | U64 _ => 3
  | I8 _ => 4
  | I16 _ => 5
  | I32 _ => 6
  | I64 _ => 7

/-- `MonitorValuePayload::write_bytes`. -/
def write_bytes : MonitorValuePayload → List Nat
  | U8 v => [v]
  | U16 v => nat_to_le_bytes 2 v
  | U32 v => nat_to_le_bytes 4 v
  | U64 v => nat_to_le_bytes 8 v
  | I8 v => [int_to_2c 1 v]
  | I16 v => nat_to_le_bytes 2 (int_to_2c 2 v)
  | I32 v => nat_to_le_bytes 4 (int_to_2c 4 v)
  | I64 v => nat_to_le_bytes 8 (int_to_2c 8 v)

/-- `MonitorValuePayload::from_bytes`. -/
def from_bytes (type_id : Nat) (bs : List Nat) :
    Option (MonitorValuePayload × List Nat) :=
  match type_id with
  | 0 => do
    let (b, bs) ← readByte bs
    some (U8 b, bs)
  | 1 => do
    let (l, bs) ← readBytesN 2 bs
    some (U16 (nat_from_le_bytes l), bs)
  | 2 => do
    let (l, bs) ← readBytesN 4 bs
    some (U32 (nat_from_le_bytes l), bs)
  | 3 => do
    let (l, bs) ← readBytesN 8 bs
    some (U64 (nat_from_le_bytes l), bs)
  | 4 => do
    let (b, bs) ← readByte bs
    some (I8 (int_from_2c 1 b), bs)
  | 5 => do
    let (l, bs) ← readBytesN 2 bs
    some (I16 (int_from_2c 2 (nat_from_le_bytes l)), bs)
  | 6 => do
    let (l, bs) ← readBytesN 4 bs
    some (I32 (int_from_2c 4 (nat_from_le_bytes l)), bs)
  | 7 => do
    let (l, bs) ← readBytesN 8 bs
    some (I64 (int_from_2c 8 (nat_from_le_bytes l)), bs)
  | _ => none

/-- Range constraints enforced for the payloads by the Rust integer types. -/
def wf : MonitorValuePayload → Prop
  | U8 v => v < 2 ^ 8
  | U16 v => v < 2 ^ 16
  | U32 v => v < 2 ^ 32
  | U64 v => v < 2 ^ 64
  | I8 v => -(2 ^ 7) ≤ v ∧ v < 2 ^ 7
  | I16 v => -(2 ^ 15) ≤ v ∧ v < 2 ^ 15
  | I32 v => -(2 ^ 31) ≤ v ∧ v < 2 ^ 31
  | I64 v => -(2 ^ 63) ≤ v ∧ v < 2 ^ 63

end MonitorValuePayload

/-! ## TypeDefinitionPayload (protocol/typedef_payload.rs) -/

inductive TypeDefinitionPayload where
  | EmbassyTaskCreated (task_id executor_id_long executor_id_short : Nat)
  | EmbassyTaskEnded (task_id executor_id_long executor_id_short : Nat)
  | FunctionMonitor (monitor_id fn_address : Nat)
  | ScopeMonitor (monitor_id : Nat) (name : List Nat)
  | ValueMonitor (value_id type_id : Nat) (name : List Nat)
  deriving DecidableEq, Repr

namespace TypeDefinitionPayload

/-- `TypeDefinitionPayload::type_id` of
`rustmeter-beacon-core/src/protocol/typedef_payload.rs` (the codec revision
that also carries `from_bytes`). -/
def type_id : TypeDefinitionPayload → Nat
  | EmbassyTaskCreated .. => 0
  | EmbassyTaskEnded .. => 1
  | FunctionMonitor .. => 2
  | ScopeMonitor .. => 3
  | ValueMonitor .. => 4

/-- `TypeDefinitionPayload::type_id` of the coexisting legacy protocol module
`rustmeter-beacon-core/src/protocol.rs` (lines 175-183), which numbers the
monitor sub-kinds 3, 4, 5. -/
def legacy_type_id : TypeDefinitionPayload → Nat
  | EmbassyTaskCreated .. => 0
  | EmbassyTaskEnded .. => 1
  | FunctionMonitor .. => 3
  | ScopeMonitor .. => 4
  | ValueMonitor .. => 5

/-- The payload bytes written after the leading sub-kind byte by
`TypeDefinitionPayload::write_bytes`. -/
def bodyBytes : TypeDefinitionPayload → List Nat
  | EmbassyTaskCreated task_id executor_id_long executor_id_short =>
    nat_to_le_bytes 4 task_id ++ nat_to_le_bytes 4 executor_id_long
      ++ [executor_id_short]
  | EmbassyTaskEnded task_id executor_id_long executor_id_short =>
    nat_to_le_bytes 4 task_id ++ nat_to_le_bytes 4 executor_id_long
      ++ [executor_id_short]
  | FunctionMonitor monitor_id fn_address =>
    monitor_id :: nat_to_le_bytes 4 fn_address
  | ScopeMonitor monitor_id name =>
    monitor_id :: (name ++ [0])
  | ValueMonitor value_id type_id name =>
    value_id :: type_id :: (name ++ [0])

/-- `TypeDefinitionPayload::write_bytes` (typedef_payload.rs): the sub-kind
byte followed by the sub-kind specific fields. -/
def write_bytes (t : TypeDefinitionPayload) : List Nat :=
  t.type_id :: t.bodyBytes

/-- `TypeDefinitionPayload::write_bytes` of the legacy protocol.rs module. -/
def legacy_write_bytes (t : TypeDefinitionPayload) : List Nat :=
  t.legacy_type_id :: t.bodyBytes

/-- `TypeDefinitionPayload::from_bytes` (typedef_payload.rs).  `u3::new` on
the short-executor byte asserts the value fits 3 bits in the source; it is
total here (`% 8`) and only applied to in-range bytes in the theorems. -/
def from_bytes (typedef_id : Nat) (bs : List Nat) :
    Option (TypeDefinitionPayload × List Nat) :=
  match typedef_id with
  | 0 => do
    let (task_bytes, bs) ← readBytesN 4 bs
    let (long_bytes, bs) ← readBytesN 4 bs
    let (short, bs) ← readByte bs
    some (EmbassyTaskCreated (nat_from_le_bytes task_bytes)
      (nat_from_le_bytes long_bytes) (short % 8), bs)
  | 1 => do
    let (task_bytes, bs) ← readBytesN 4 bs
    let (long_bytes, bs) ← readBytesN 4 bs
    let (short, bs) ← readByte bs
    some (EmbassyTaskEnded (nat_from_le_bytes task_bytes)
      (nat_from_le_bytes long_bytes) (short % 8), bs)
  | 2 => do
    let (monitor_id, bs) ← readByte bs
    let (addr_bytes, bs) ← readBytesN 4 bs
    some (FunctionMonitor monitor_id (nat_from_le_bytes addr_bytes), bs)
  | 3 => do
    let (monitor_id, bs) ← readByte bs
    let (name, bs) ← readNullTerminated bs
    some (ScopeMonitor monitor_id name, bs)
  | 4 => do
    let (value_id, bs) ← readByte bs
    let (type_id, bs) ← readByte bs
    let (name, bs) ← readNullTerminated bs
    some (ValueMonitor value_id type_id name, bs)
  | _ => none

/-- Range constraints enforced by the Rust types, plus: names are byte
strings without interior NUL (the serializer null-terminates them). -/
def wf : TypeDefinitionPayload → Prop
  | EmbassyTaskCreated task_id executor_id_long executor_id_short =>
    task_id < 2 ^ 32 ∧ executor_id_long < 2 ^ 32 ∧ executor_id_short < 8
  | EmbassyTaskEnded task_id executor_id_long executor_id_short =>
    task_id < 2 ^ 32 ∧ executor_id_long < 2 ^ 32 ∧ executor_id_short < 8
  | FunctionMonitor monitor_id fn_address =>
    monitor_id < 2 ^ 8 ∧ fn_address < 2 ^ 32
  | ScopeMonitor monitor_id name =>
    monitor_id < 2 ^ 8 ∧ ∀ b ∈ name, 0 < b ∧ b < 256
  | ValueMonitor value_id type_id name =>
    value_id < 2 ^ 8 ∧ type_id < 2 ^ 8 ∧ ∀ b ∈ name, 0 < b ∧ b < 256

end TypeDefinitionPayload

/-! ## EventPayload (protocol/event_payload.rs) -/

inductive EventPayload where
  | EmbassyTaskReady (task_id : Nat)
  | EmbassyTaskExecBeginCore0 (task_id : Nat)
  | EmbassyTaskExecBeginCore1 (task_id : Nat)
  | EmbassyTaskExecEndCore0 (executor_id : Nat)
  | EmbassyTaskExecEndCore1 (executor_id : Nat)
  | EmbassyExecutorPollStart (executor_id : Nat)
  | EmbassyExecutorIdle (executor_id : Nat)
  | MonitorStartCore0 (monitor_id : Nat)
  | MonitorStartCore1 (monitor_id : Nat)
  | MonitorEndCore0
  | MonitorEndCore1
  | MonitorValue (value_id : Nat) (value : MonitorValuePayload)
  | TypeDefinition (def_ : TypeDefinitionPayload)
  deriving DecidableEq, Repr

namespace EventPayload

/-- `EventPayload::event_id` (a `u5`). -/
def event_id : EventPayload → Nat
  | EmbassyTaskReady _ => 0
  | EmbassyTaskExecBeginCore0 _ => 1
  | EmbassyTaskExecBeginCore1 _ => 2
  | EmbassyTaskExecEndCore0 _ => 3
  | EmbassyTaskExecEndCore1 _ => 4
  | EmbassyExecutorPollStart _ => 5
  | EmbassyExecutorIdle _ => 6
  | MonitorStartCore0 _ => 7
  | MonitorStartCore1 _ => 8
  | MonitorEndCore0 => 9
  | MonitorEndCore1 => 10
  | MonitorValue .. => 11
  | TypeDefinition _ => 12

/-- `EventPayload::get_executor_id`. -/
def get_executor_id : EventPayload → Option Nat
  | EmbassyTaskExecEndCore0 executor_id => some executor_id
  | EmbassyTaskExecEndCore1 executor_id => some executor_id
  | EmbassyExecutorPollStart executor_id => some executor_id
  | EmbassyExecutorIdle executor_id => some executor_id
  | _ => none

/-- The packed event-header byte written first by `EventPayload::write_bytes`:
event ID (5 bits) shifted left past the executor short ID (3 bits). -/
def headerByte (p : EventPayload) : Nat :=
  p.event_id <<< 3 ||| (p.get_executor_id.getD 0)

/-- The payload bytes written after the header byte. -/
def bodyBytes : EventPayload → List Nat
  | EmbassyTaskReady task_id => nat_to_le_bytes 2 task_id
  | EmbassyTaskExecBeginCore0 task_id => nat_to_le_bytes 2 task_id
  | EmbassyTaskExecBeginCore1 task_id => nat_to_le_bytes 2 task_id
  | EmbassyTaskExecEndCore0 _ => []
  | EmbassyTaskExecEndCore1 _ => []
  | EmbassyExecutorPollStart _ => []
  | EmbassyExecutorIdle _ => []
  | MonitorStartCore0 monitor_id => [monitor_id]
  | MonitorStartCore1 monitor_id => [monitor_id]
  | MonitorEndCore0 => []
  | MonitorEndCore1 => []
  | MonitorValue value_id value => value_id :: value.write_bytes
  | TypeDefinition d => d.write_bytes

/-- `EventPayload::write_bytes`: header byte then payload. -/
def write_bytes (p : EventPayload) : List Nat :=
  p.headerByte :: p.bodyBytes

/-- The `MonitorValueReaderFn` the decoder supplies to `from_bytes`. -/
def MonitorValueReaderFn : Type :=
  Nat → List Nat → Option (MonitorValuePayload × List Nat)

/-- `EventPayload::from_bytes`: dispatches on the upper 5 bits of the header
byte; the lower 3 bits are the short executor ID. -/
def from_bytes (event_type : Nat) (bs : List Nat)
    (monitor_value_reader : MonitorValueReaderFn) :
    Option (EventPayload × List Nat) :=
  match event_type >>> 3 with
  | 0 => do
    let (l, bs) ← readBytesN 2 bs
    some (EmbassyTaskReady (nat_from_le_bytes l), bs)
  | 1 => do
    let (l, bs) ← readBytesN 2 bs
    some (EmbassyTaskExecBeginCore0 (nat_from_le_bytes l), bs)
  | 2 => do
    let (l, bs) ← readBytesN 2 bs
    some (EmbassyTaskExecBeginCore1 (nat_from_le_bytes l), bs)
  | 3 => some (EmbassyTaskExecEndCore0 (event_type &&& 0x07), bs)
  | 4 => some (EmbassyTaskExecEndCore1 (event_type &&& 0x07), bs)
  | 5 => some (EmbassyExecutorPollStart (event_type &&& 0x07), bs)
  | 6 => some (EmbassyExecutorIdle (event_type &&& 0x07), bs)
  | 7 => do
    let (monitor_id, bs) ← readByte bs
    some (MonitorStartCore0 monitor_id, bs)
  | 8 => do
    let (monitor_id, bs) ← readByte bs
    some (MonitorStartCore1 monitor_id, bs)
  | 9 => some (MonitorEndCore0, bs)
  | 10 => some (MonitorEndCore1, bs)
  | 11 => do
    let (value_id, bs) ← readByte bs
    let (value, bs) ← monitor_value_reader value_id bs
    some (MonitorValue value_id value, bs)
  | 12 => do
    let (typedef_it, bs) ← readByte bs
    let (d, bs) ← TypeDefinitionPayload.from_bytes typedef_it bs
    some (TypeDefinition d, bs)
  | _ => none

/-- Range constraints on the wire fields enforced by the Rust types. -/
def wf : EventPayload → Prop
  | EmbassyTaskReady task_id => task_id < 2 ^ 16
  | EmbassyTaskExecBeginCore0 task_id => task_id < 2 ^ 16
  | EmbassyTaskExecBeginCore1 task_id => task_id < 2 ^ 16
  | EmbassyTaskExecEndCore0 executor_id => executor_id < 8
  | EmbassyTaskExecEndCore1 executor_id => executor_id < 8
  | EmbassyExecutorPollStart executor_id => executor_id < 8
  | EmbassyExecutorIdle executor_id => executor_id < 8
  | MonitorStartCore0 monitor_id => monitor_id < 2 ^ 8
  | MonitorStartCore1 monitor_id => monitor_id < 2 ^ 8
  | MonitorEndCore0 => True
  | MonitorEndCore1 => True
  | MonitorValue value_id value => value_id < 2 ^ 8 ∧ value.wf
  | TypeDefinition d => d.wf

/-- The monitor-value reader primed with `p`'s monitor value type, as the
round-trip test constructs it: it parses with the type ID of the value carried
by `p` (and is never invoked for other payload kinds). -/
def primedReader (p : EventPayload) : MonitorValueReaderFn :=
  match p with
  | MonitorValue _ value => fun _ bs => MonitorValuePayload.from_bytes value.type_id bs
  | _ => fun _ _ => none

end EventPayload

/-- `compressed_task_id` (rustmeter-beacon-core/src/lib.rs): discard the two
alignment bits, XOR-fold the high half, truncate to `u16`. -/
def compressed_task_id (task_id : Nat) : Nat :=
  let shifted := task_id >>> 2
  let folded := (shifted ^^^ (shifted >>> 16)) % 2 ^ 16
  folded

end Beacon

namespace Host

/-! ## Trace events (rustmeter-cli/src/perfetto_backend/trace_event.rs)

Timestamps are `Nat` microseconds (`Duration` is a microsecond count
everywhere in the engine; `as_micros` on such a value is the count itself).
The string/float `args` maps and the `Instant` decorations are not modelled:
they are pure output decoration and never feed back into engine state. -/

inductive TracingEvent where
  | Complete (name : String) (cat : Option String) (pid tid ts dur : Nat)
  | Begin (name : String) (cat : Option String) (ts pid : Nat) (tid : Option Nat)
  | EndEvent (name : Option String) (cat : Option String) (pid : Nat)
      (tid : Option Nat) (ts : Nat)
  | Counter (name : String) (cat : Option String) (pid : Option Nat) (ts : Nat)
  | Metadata (name : String) (cat : Option String) (pid : Nat) (tid : Option Nat)
  deriving DecidableEq, Repr

/-- `(t2 - t1).as_micros() as u64` on monotonic `Duration` values: the
difference truncated to `u64`. -/
def durUs (start stop : Nat) : Nat :=
  (stop - start) % 2 ^ 64

/-- Wrapping `u64` subtraction (release-profile semantics of `a - b`), for
`a`, `b` < 2^64. -/
def u64_sub (a b : Nat) : Nat :=
  (a + 2 ^ 64 - b) % 2 ^ 64

/-! ## Task state machine (rustmeter-cli/src/tracing/task.rs) -/

inductive TaskState where
  | Spawned
  | Ready
  | Running
  | Preempted (by_executor_id : Nat)
  | Idle
  | Ended
  | StreamDesynchronized
  deriving DecidableEq, Repr

namespace TaskState

/-- `TaskState::to_string`. -/
def to_string : TaskState → String
  | Spawned => "Spawned"
  | Ready => "Ready"
  | Running => "Running"
  | Preempted by_executor_id => s!"Preempted (by {by_executor_id})"
  | Idle => "Idle"
  | Ended => "Ended"
  | StreamDesynchronized => "StreamDesynchronized"

/-- `matches!(t.state(), TaskState::Running)`. -/
def isRunning : TaskState → Bool
  | Running => true
  | _ => false

/-- `matches!(t.state(), TaskState::Preempted { .. })`. -/
def isPreempted : TaskState → Bool
  | Preempted _ => true
  | _ => false

end TaskState

/-- `TaskTracing`.  The `VecDeque`s are lists with the deque front at the
head; `out` is this component's clone of the trace-event channel. -/
structure TaskTracing where
  executor_id : Nat
  task_id : Nat
  state : TaskState
  state_start : Nat
  reawoken_while_running : Bool
  current_monitors : List (String × Nat)
  preempted_monitors : List String
  out : List TracingEvent
  deriving DecidableEq, Repr

namespace TaskTracing

/-- `trace_event_tx.send`. -/
def send (t : TaskTracing) (e : TracingEvent) : TaskTracing :=
  { t with out := t.out ++ [e] }

/-- `TaskTracing::new_spawned` (also the common part of `new_ready` /
`new_exec_begin`): sends an End for the previous state (data-loss recovery)
and starts in the given state. -/
def newWith (executor_id task_id : Nat) (state : TaskState) (state_start : Nat) :
    TaskTracing :=
  { executor_id := executor_id
    task_id := task_id
    state := state
    state_start := state_start
    reawoken_while_running := false
    current_monitors := []
    preempted_monitors := []
    out := [TracingEvent.EndEvent none none executor_id (some task_id) state_start] }

def new_spawned (executor_id task_id state_start : Nat) : TaskTracing :=
  newWith executor_id task_id TaskState.Spawned state_start

def new_ready (executor_id task_id state_start : Nat) : TaskTracing :=
  newWith executor_id task_id TaskState.Ready state_start

def new_exec_begin (executor_id task_id state_start : Nat) : TaskTracing :=
  newWith executor_id task_id TaskState.Running state_start

/-- `TaskTracing::transition_to`. -/
def transition_to (t : TaskTracing) (new_state : TaskState) (timestamp : Nat) :
    TaskTracing :=
  if t.state = new_state then t
  else
    let t := t.send (TracingEvent.EndEvent none none t.executor_id
      (some t.task_id) timestamp)
    let t := t.send (TracingEvent.Begin new_state.to_string none timestamp
      t.executor_id (some t.task_id))
    { t with state := new_state, state_start := timestamp }

/-- The `Complete` record a task emits for a code monitor opened at
`start_timestamp` and closed at `timestamp`. -/
def monitorComplete (t : TaskTracing) (name : String) (start_timestamp timestamp : Nat) :
    TracingEvent :=
  TracingEvent.Complete name (some "code_monitor") t.executor_id t.task_id
    start_timestamp (durUs start_timestamp timestamp)

/-- `TaskTracing::on_desynchronize`. -/
def on_desynchronize (t : TaskTracing) (timestamp : Nat) : TaskTracing :=
  let t := t.transition_to TaskState.StreamDesynchronized timestamp
  let t := t.current_monitors.foldl
    (fun acc m => acc.send (acc.monitorComplete m.1 m.2 timestamp)) t
  { t with current_monitors := [] }

/-- `TaskTracing::on_ready`; the `Bool` is the `anyhow::Result` (`false` =
`bail!`, with the state as mutated up to that point). -/
def on_ready (t : TaskTracing) (timestamp : Nat) : TaskTracing × Bool :=
  match t.state with
  | TaskState.Spawned | TaskState.Idle =>
    ({ t.transition_to TaskState.Ready timestamp with reawoken_while_running := false }, true)
  | TaskState.Running | TaskState.Preempted _ =>
    ({ t with reawoken_while_running := true }, true)
  | _ => (t, false)

/-- `TaskTracing::on_exec_begin`. -/
def on_exec_begin (t : TaskTracing) (timestamp : Nat) : TaskTracing × Bool :=
  match t.state with
  | TaskState.Ready => (t.transition_to TaskState.Running timestamp, true)
  | _ => (t, false)

/-- `TaskTracing::on_exec_end`. -/
def on_exec_end (t : TaskTracing) (timestamp : Nat) : TaskTracing × Bool :=
  match t.state with
  | TaskState.Running =>
    let t := if t.reawoken_while_running then t.transition_to TaskState.Ready timestamp
      else t.transition_to TaskState.Idle timestamp
    ({ t with reawoken_while_running := false }, true)
  | _ => (t, false)

/-- `TaskTracing::on_end`. -/
def on_end (t : TaskTracing) (timestamp : Nat) : TaskTracing × Bool :=
  match t.state with
  | TaskState.Running => (t.transition_to TaskState.Ended timestamp, true)
  | _ => (t, false)

/-- `TaskTracing::on_preempted`: flush every open monitor as a `Complete` up
to the preemption instant, pushing its name onto the front of the
preempted-monitor deque. -/
def on_preempted (t : TaskTracing) (timestamp by_executor_id : Nat) :
    TaskTracing × Bool :=
  match t.state with
  | TaskState.Running =>
    let t := t.transition_to (TaskState.Preempted by_executor_id) timestamp
    let t := t.current_monitors.foldl
      (fun acc m =>
        { acc.send (acc.monitorComplete m.1 m.2 timestamp) with
          preempted_monitors := m.1 :: acc.preempted_monitors }) t
    ({ t with current_monitors := [] }, true)
  | _ => (t, false)

/-- `TaskTracing::on_resumed`: re-open the preempted monitors by pushing each
name onto the back of the open-monitor deque with the resume timestamp. -/
def on_resumed (t : TaskTracing) (timestamp : Nat) : TaskTracing × Bool :=
  match t.state with
  | TaskState.Preempted _ =>
    let t := t.transition_to TaskState.Running timestamp
    ({ t with
        current_monitors := t.current_monitors
          ++ t.preempted_monitors.map (fun name => (name, timestamp))
        preempted_monitors := [] }, true)
  | _ => (t, false)

/-- `TaskTracing::on_monitor_start`: push onto the back of the deque. -/
def on_monitor_start (t : TaskTracing) (name : String) (timestamp : Nat) :
    TaskTracing :=
  { t with current_monitors := t.current_monitors ++ [(name, timestamp)] }

/-- `TaskTracing::on_monitor_end`: pop the back of the deque and emit a
`Complete` spanning start to end. -/
def on_monitor_end (t : TaskTracing) (timestamp : Nat) : TaskTracing :=
  match t.current_monitors.getLast? with
  | some (name, start_timestamp) =>
    { t.send (t.monitorComplete name start_timestamp timestamp) with
      current_monitors := t.current_monitors.dropLast }
  | none => t

/-- `TaskTracing::on_drop`. -/
def on_drop (t : TaskTracing) (timestamp : Nat) : TaskTracing :=
  let t := t.send (TracingEvent.EndEvent none none t.executor_id
    (some t.task_id) timestamp)
  let t := t.current_monitors.foldl
    (fun acc m => acc.send (acc.monitorComplete m.1 m.2 timestamp)) t
  { t with current_monitors := [] }

end TaskTracing

/-! ## Executor state machine (rustmeter-cli/src/tracing/executor.rs) -/

inductive PreemptedPrevState where
  | Scheduling
  | Polling (task_id : Nat)
  deriving DecidableEq, Repr

inductive ExecutorState where
  | Idle
  | Scheduling
  | Preempted (by_executor_id : Nat) (prev_state : PreemptedPrevState)
  | Polling (task_id : Nat)
  | StreamDesynchronized
  deriving DecidableEq, Repr

/-- `From<PreemptedPrevState> for ExecutorState`. -/
def PreemptedPrevState.toExecutorState : PreemptedPrevState → ExecutorState
  | PreemptedPrevState.Scheduling => ExecutorState.Scheduling
  | PreemptedPrevState.Polling task_id => ExecutorState.Polling task_id

namespace ExecutorState

/-- `ExecutorState::to_string`. -/
def to_string : ExecutorState → String
  | Idle => "Idle"
  | Scheduling => "Scheduling"
  | Preempted by_executor_id _ => s!"Preempted (by Executor {by_executor_id})"
  | Polling task_id => s!"Polling Task {task_id}"
  | StreamDesynchronized => "Stream Desynchronized"

end ExecutorState

/-- Association-list update of the task keyed `k` (the `HashMap::get_mut` +
mutate pattern); `true` when the key is absent (the caller checks presence
first). -/
def modifyValue {β : Type} (l : List (Nat × β)) (k : Nat) (f : β → β × Bool) :
    List (Nat × β) × Bool :=
  match l with
  | [] => ([], true)
  | (k', v) :: rest =>
    if k' = k then
      let (v', ok) := f v
      ((k', v') :: rest, ok)
    else
      let (rest', ok) := modifyValue rest k f
      ((k', v) :: rest', ok)

/-- `values_mut().find(p)` followed by a fallible mutation of the found
value: `none` when no value matches. -/
def updateFirstValue {β γ : Type} (p : β → Bool) (f : β → β × γ) :
    List (Nat × β) → Option (List (Nat × β) × γ)
  | [] => none
  | (k, v) :: rest =>
    if p v then
      let (v', r) := f v
      some ((k, v') :: rest, r)
    else
      (updateFirstValue p f rest).map (fun pr => ((k, v) :: pr.1, pr.2))

/-- `ExecutorTracing`: tracked tasks keyed by short task ID. -/
structure ExecutorTracing where
  executor_id : Nat
  current_state : ExecutorState
  state_start : Nat
  tasks : List (Nat × TaskTracing)
  out : List TracingEvent
  deriving DecidableEq, Repr

namespace ExecutorTracing

def send (s : ExecutorTracing) (e : TracingEvent) : ExecutorTracing :=
  { s with out := s.out ++ [e] }

/-- `ExecutorTracing::new_polling`: created in `Polling` with the given task
already `Running`, after an End for whatever state preceded data loss. -/
def new_polling (executor_id state_start task_id : Nat) : ExecutorTracing :=
  { executor_id := executor_id
    current_state := ExecutorState.Polling task_id
    state_start := state_start
    tasks := [(task_id, TaskTracing.new_exec_begin executor_id task_id state_start)]
    out := [TracingEvent.EndEvent none none executor_id (some 0) state_start] }

/-- `ExecutorTracing::is_running`: Polling or Scheduling. -/
def is_running (s : ExecutorTracing) : Bool :=
  match s.current_state with
  | ExecutorState.Polling _ => true
  | ExecutorState.Scheduling => true
  | _ => false

/-- `ExecutorTracing::is_preempted_by`. -/
def is_preempted_by (s : ExecutorTracing) (executor_id : Nat) : Bool :=
  match s.current_state with
  | ExecutorState.Preempted by_executor_id _ => by_executor_id = executor_id
  | _ => false

/-- `ExecutorTracing::transition_to`. -/
def transition_to (s : ExecutorTracing) (new_state : ExecutorState)
    (timestamp : Nat) : ExecutorTracing :=
  if s.current_state = new_state then s
  else
    let s := s.send (TracingEvent.EndEvent none none s.executor_id (some 0) timestamp)
    let s := s.send (TracingEvent.Begin new_state.to_string none timestamp
      s.executor_id (some 0))
    { s with current_state := new_state, state_start := timestamp }

/-- `ExecutorTracing::on_desynchronize`. -/
def on_desynchronize (s : ExecutorTracing) (timestamp : Nat) : ExecutorTracing :=
  let s := s.transition_to ExecutorState.StreamDesynchronized timestamp
  { s with tasks := s.tasks.map (fun p => (p.1, p.2.on_desynchronize timestamp)) }

/-- `ExecutorTracing::on_task_new_spawned` (ignores existing tasks). -/
def on_task_new_spawned (s : ExecutorTracing) (task_id timestamp : Nat) :
    ExecutorTracing × Bool :=
  if (s.tasks.lookup task_id).isSome then (s, true)
  else
    ({ s with tasks := s.tasks
        ++ [(task_id, TaskTracing.new_spawned s.executor_id task_id timestamp)] }, true)

/-- `ExecutorTracing::on_task_ready` (creates the task in Ready if absent). -/
def on_task_ready (s : ExecutorTracing) (task_id timestamp : Nat) :
    ExecutorTracing × Bool :=
  if (s.tasks.lookup task_id).isSome then
    let (tasks', ok) := modifyValue s.tasks task_id (fun t => t.on_ready timestamp)
    ({ s with tasks := tasks' }, ok)
  else
    ({ s with tasks := s.tasks
        ++ [(task_id, TaskTracing.new_ready s.executor_id task_id timestamp)] }, true)

/-- `ExecutorTracing::on_task_exec_begin`: refuses (`bail!`) when another
task is already Running; otherwise moves/creates the task Running and goes
to `Polling`. -/
def on_task_exec_begin (s : ExecutorTracing) (task_id timestamp : Nat) :
    ExecutorTracing × Bool :=
  if s.tasks.any (fun p => p.2.state.isRunning) then (s, false)
  else
    if (s.tasks.lookup task_id).isSome then
      let (tasks', ok) := modifyValue s.tasks task_id (fun t => t.on_exec_begin timestamp)
      if ok then
        (({ s with tasks := tasks' }).transition_to (ExecutorState.Polling task_id)
          timestamp, true)
      else ({ s with tasks := tasks' }, false)
    else
      let s := { s with tasks := s.tasks
        ++ [(task_id, TaskTracing.new_exec_begin s.executor_id task_id timestamp)] }
      (s.transition_to (ExecutorState.Polling task_id) timestamp, true)

/-- `ExecutorTracing::on_task_exec_end`: only legal in `Polling`; ends the
polled task then goes to `Scheduling`. -/
def on_task_exec_end (s : ExecutorTracing) (timestamp : Nat) :
    ExecutorTracing × Bool :=
  match s.current_state with
  | ExecutorState.Polling task_id =>
    if (s.tasks.lookup task_id).isSome then
      let (tasks', ok) := modifyValue s.tasks task_id (fun t => t.on_exec_end timestamp)
      if ok then
        (({ s with tasks := tasks' }).transition_to ExecutorState.Scheduling
          timestamp, true)
      else ({ s with tasks := tasks' }, false)
    else (s, false)
  | _ => (s, false)

def preemptTasksAnd (s : ExecutorTracing) (prev_state : PreemptedPrevState)
    (timestamp by_executor_id : Nat) : ExecutorTracing × Bool :=
  match updateFirstValue (fun t => t.state.isRunning)
      (fun t => t.on_preempted timestamp by_executor_id) s.tasks with
  | some (tasks', ok) =>
    if ok then
      (({ s with tasks := tasks' }).transition_to
        (ExecutorState.Preempted by_executor_id prev_state) timestamp, true)
    else ({ s with tasks := tasks' }, false)
  | none =>
    (s.transition_to (ExecutorState.Preempted by_executor_id prev_state)
      timestamp, true)

/-- `ExecutorTracing::on_preempted`: preempts the running task (if any) and
records the previous state; `preemptTasksAnd` is its shared tail after
computing `prev_state`. -/
def on_preempted (s : ExecutorTracing) (timestamp by_executor_id : Nat) :
    ExecutorTracing × Bool :=
  match s.current_state with
  | ExecutorState.Scheduling =>
    s.preemptTasksAnd PreemptedPrevState.Scheduling timestamp by_executor_id
  | ExecutorState.Polling task_id =>
    s.preemptTasksAnd (PreemptedPrevState.Polling task_id) timestamp by_executor_id
  | _ => (s, false)

/-- `ExecutorTracing::on_resume`: only legal in `Preempted`; resumes the
preempted task (if any) and restores the recorded previous state. -/
def on_resume (s : ExecutorTracing) (timestamp : Nat) : ExecutorTracing × Bool :=
  match s.current_state with
  | ExecutorState.Preempted _ prev_state =>
    match updateFirstValue (fun t => t.state.isPreempted)
        (fun t => t.on_resumed timestamp) s.tasks with
    | some (tasks', ok) =>
      if ok then
        (({ s with tasks := tasks' }).transition_to prev_state.toExecutorState
          timestamp, true)
      else ({ s with tasks := tasks' }, false)
    | none => (s.transition_to prev_state.toExecutorState timestamp, true)
  | _ => (s, false)

/-- `ExecutorTracing::on_task_end`: unknown tasks are ignored; otherwise only
legal in `Polling`, and it ends the *polled* task (the pattern binding
shadows the argument in the source). -/
def on_task_end (s : ExecutorTracing) (timestamp task_id : Nat) :
    ExecutorTracing × Bool :=
  if (s.tasks.lookup task_id).isNone then (s, true)
  else
    match s.current_state with
    | ExecutorState.Polling polled_task_id =>
      if (s.tasks.lookup polled_task_id).isSome then
        let (tasks', ok) := modifyValue s.tasks polled_task_id
          (fun t => t.on_end timestamp)
        ({ s with tasks := tasks' }, ok)
      else (s, false)
    | _ => (s, false)

/-- `ExecutorTracing::on_poll_start`. -/
def on_poll_start (s : ExecutorTracing) (timestamp : Nat) : ExecutorTracing × Bool :=
  (s.transition_to ExecutorState.Scheduling timestamp, true)

/-- `ExecutorTracing::on_idle`. -/
def on_idle (s : ExecutorTracing) (timestamp : Nat) : ExecutorTracing × Bool :=
  (s.transition_to ExecutorState.Idle timestamp, true)

/-- `ExecutorTracing::on_monitor_start`: forwarded to the polled task. -/
def on_monitor_start (s : ExecutorTracing) (name : String) (timestamp : Nat) :
    ExecutorTracing :=
  match s.current_state with
  | ExecutorState.Polling task_id =>
    if (s.tasks.lookup task_id).isSome then
      { s with tasks := (modifyValue s.tasks task_id
          (fun t => (t.on_monitor_start name timestamp, true))).1 }
    else s
  | _ => s

/-- `ExecutorTracing::on_monitor_end`: forwarded to the polled task. -/
def on_monitor_end (s : ExecutorTracing) (timestamp : Nat) : ExecutorTracing :=
  match s.current_state with
  | ExecutorState.Polling task_id =>
    if (s.tasks.lookup task_id).isSome then
      { s with tasks := (modifyValue s.tasks task_id
          (fun t => (t.on_monitor_end timestamp, true))).1 }
    else s
  | _ => s

/-- `ExecutorTracing::on_drop`. -/
def on_drop (s : ExecutorTracing) (timestamp : Nat) : ExecutorTracing :=
  let s := { s with
    tasks := s.tasks.map (fun p : Nat × TaskTracing => (p.1, p.2.on_drop timestamp)) }
  s.send (TracingEvent.EndEvent none none s.executor_id (some 0) timestamp)

end ExecutorTracing

/-! ## Per-core reconstruction (rustmeter-cli/src/tracing/core.rs) -/

def u32MAX : Nat := 2 ^ 32 - 1

/-- `HashMap::insert`: replace the value of an existing key or add the
entry. -/
def insertAssoc {β : Type} (l : List (Nat × β)) (k : Nat) (v : β) : List (Nat × β) :=
  if (l.lookup k).isSome then
    l.map (fun p => if p.1 = k then (k, v) else p)
  else l ++ [(k, v)]

/-- `CoreTracing`: executors keyed by short executor ID, plus the bare-core
monitor stack (deque front at the head) and the preempted-monitor stack. -/
structure CoreTracing where
  core_id : Nat
  executors : List (Nat × ExecutorTracing)
  monitor_stack : List (String × Nat)
  preempted_monitors : List String
  out : List TracingEvent
  deriving DecidableEq, Repr

namespace CoreTracing

def new (core_id : Nat) : CoreTracing :=
  { core_id := core_id
    executors := []
    monitor_stack := []
    preempted_monitors := []
    out := [] }

def send (s : CoreTracing) (e : TracingEvent) : CoreTracing :=
  { s with out := s.out ++ [e] }

/-- `core_id_to_tid!`: TID 0 is reserved, so core 0 is TID 1. -/
def tid (s : CoreTracing) : Nat := s.core_id + 1

/-- `begin_state!`. -/
def begin_state (s : CoreTracing) (name : String) (timestamp : Nat) : CoreTracing :=
  s.send (TracingEvent.Begin name none timestamp (u32MAX - 1) (some s.tid))

/-- `end_state!`. -/
def end_state (s : CoreTracing) (name : Option String) (timestamp : Nat) : CoreTracing :=
  s.send (TracingEvent.EndEvent name none (u32MAX - 1) (some s.tid) timestamp)

/-- The bare-core `Complete` for a code monitor; `extra` is the constant the
source subtracts from the `u64` duration on this path (30 in `monitor_end`,
0 in the desynchronize/preempt/drop flushes). -/
def monitorComplete (s : CoreTracing) (name : String) (start_timestamp timestamp extra : Nat) :
    TracingEvent :=
  TracingEvent.Complete name (some "code_monitor") (u32MAX - 1) s.tid
    start_timestamp (u64_sub (durUs start_timestamp timestamp) extra)

/-- `CoreTracing::monitor_start`: forwarded to a running executor if there is
one, otherwise pushed on the bare-core stack. -/
def monitor_start (s : CoreTracing) (name : String) (timestamp : Nat) : CoreTracing :=
  match updateFirstValue (fun e => e.is_running)
      (fun e => (e.on_monitor_start name timestamp, ())) s.executors with
  | some (executors', _) => { s with executors := executors' }
  | none => { s with monitor_stack := (name, timestamp) :: s.monitor_stack }

/-- `CoreTracing::monitor_end`: forwarded to a running executor if there is
one, otherwise pops the bare-core stack and emits a `Complete` whose `u64`
duration has 30 subtracted. -/
def monitor_end (s : CoreTracing) (timestamp : Nat) : CoreTracing :=
  match updateFirstValue (fun e => e.is_running)
      (fun e => (e.on_monitor_end timestamp, ())) s.executors with
  | some (executors', _) => { s with executors := executors' }
  | none =>
    match s.monitor_stack with
    | (name, start_timestamp) :: stack_rest =>
      { s.send (s.monitorComplete name start_timestamp timestamp 30) with
        monitor_stack := stack_rest }
    | [] => s

/-- `CoreTracing::on_task_new_spawned`: forwarded when the executor exists,
ignored otherwise (no core information to create one). -/
def on_task_new_spawned (s : CoreTracing) (executor_id task_id timestamp : Nat) :
    CoreTracing × Bool :=
  if (s.executors.lookup executor_id).isSome then
    let (executors', ok) := modifyValue s.executors executor_id
      (fun e => e.on_task_new_spawned task_id timestamp)
    ({ s with executors := executors' }, ok)
  else (s, true)

/-- `CoreTracing::on_task_ready`. -/
def on_task_ready (s : CoreTracing) (executor_id task_id timestamp : Nat) :
    CoreTracing × Bool :=
  if (s.executors.lookup executor_id).isSome then
    let (executors', ok) := modifyValue s.executors executor_id
      (fun e => e.on_task_ready task_id timestamp)
    ({ s with executors := executors' }, ok)
  else (s, true)

/-- `CoreTracing::on_task_exec_begin`: creates a fresh polling executor when
the short ID is unknown on this core. -/
def on_task_exec_begin (s : CoreTracing) (executor_id task_id timestamp : Nat) :
    CoreTracing × Bool :=
  if (s.executors.lookup executor_id).isSome then
    let (executors', ok) := modifyValue s.executors executor_id
      (fun e => e.on_task_exec_begin task_id timestamp)
    ({ s with executors := executors' }, ok)
  else
    ({ s with executors := s.executors
        ++ [(executor_id, ExecutorTracing.new_polling executor_id timestamp task_id)] },
      true)

/-- `CoreTracing::on_task_exec_end`. -/
def on_task_exec_end (s : CoreTracing) (executor_id timestamp : Nat) :
    CoreTracing × Bool :=
  if (s.executors.lookup executor_id).isSome then
    let (executors', ok) := modifyValue s.executors executor_id
      (fun e => e.on_task_exec_end timestamp)
    ({ s with executors := executors' }, ok)
  else (s, true)

/-- `CoreTracing::on_task_end`. -/
def on_task_end (s : CoreTracing) (executor_id task_id timestamp : Nat) :
    CoreTracing × Bool :=
  if (s.executors.lookup executor_id).isSome then
    let (executors', ok) := modifyValue s.executors executor_id
      (fun e => e.on_task_end timestamp task_id)
    ({ s with executors := executors' }, ok)
  else (s, true)

/-- `CoreTracing::on_desynchronize`: desynchronize every executor, close the
core lane, open "Desynchronization", and flush the bare-core monitors. -/
def on_desynchronize (s : CoreTracing) (timestamp : Nat) : CoreTracing :=
  let s := { s with
    executors := s.executors.map
      (fun p : Nat × ExecutorTracing => (p.1, p.2.on_desynchronize timestamp)) }
  let s := s.end_state none timestamp
  let s := s.begin_state "Desynchronization" timestamp
  let s := s.monitor_stack.foldl
    (fun acc m => acc.send (acc.monitorComplete m.1 m.2 timestamp 0)) s
  { s with monitor_stack := [] }

/-- Tail of `CoreTracing::on_executor_poll_start` after the preemption check:
begin the executor lane and forward the poll start. -/
def pollStartForward (s : CoreTracing) (executor_id timestamp : Nat) :
    CoreTracing × Bool :=
  if (s.executors.lookup executor_id).isSome then
    let s := s.begin_state s!"Executor {executor_id}" timestamp
    let (executors', ok) := modifyValue s.executors executor_id
      (fun e => e.on_poll_start timestamp)
    ({ s with executors := executors' }, ok)
  else (s, true)

/-- `CoreTracing::on_executor_poll_start`: ignore unknown executors; preempt
any other running executor on this core (flushing and saving the bare-core
monitor stack) before forwarding the poll start. -/
def on_executor_poll_start (s : CoreTracing) (executor_id timestamp : Nat) :
    CoreTracing × Bool :=
  if (s.executors.lookup executor_id).isNone then (s, true)
  else
    match updateFirstValue
        (fun e => e.is_running && e.executor_id ≠ executor_id)
        (fun e =>
          let (e', ok) := e.on_preempted timestamp executor_id
          (e', (ok, e.executor_id))) s.executors with
    | some (executors', (ok, preempted_id)) =>
      if ok then
        let s := { s with executors := executors' }
        let s := s.monitor_stack.foldl
          (fun acc m =>
            { acc.send (acc.monitorComplete m.1 m.2 timestamp 0) with
              preempted_monitors := m.1 :: acc.preempted_monitors }) s
        let s := { s with monitor_stack := [] }
        let s := s.end_state (some s!"Executor {preempted_id}") timestamp
        s.pollStartForward executor_id timestamp
      else ({ s with executors := executors' }, false)
    | none => s.pollStartForward executor_id timestamp

/-- Tail of `CoreTracing::on_executor_idle`: forward the idle transition. -/
def idleForward (s : CoreTracing) (executor_id timestamp : Nat) :
    CoreTracing × Bool :=
  if (s.executors.lookup executor_id).isSome then
    let (executors', ok) := modifyValue s.executors executor_id
      (fun e => e.on_idle timestamp)
    ({ s with executors := executors' }, ok)
  else (s, true)

/-- `CoreTracing::on_executor_idle`: ignore unknown executors; resume any
executor preempted by this one (restoring the saved bare-core monitors with
the resume timestamp) before forwarding the idle. -/
def on_executor_idle (s : CoreTracing) (executor_id timestamp : Nat) :
    CoreTracing × Bool :=
  if (s.executors.lookup executor_id).isNone then (s, true)
  else
    let s := s.end_state (some s!"Executor {executor_id}") timestamp
    match updateFirstValue (fun e => e.is_preempted_by executor_id)
        (fun e =>
          let (e', ok) := e.on_resume timestamp
          (e', (ok, e.executor_id))) s.executors with
    | some (executors', (ok, resumed_id)) =>
      if ok then
        let s := { s with executors := executors' }
        let s := s.begin_state s!"Executor {resumed_id}" timestamp
        let s := { s with
          monitor_stack := s.preempted_monitors.foldl
            (fun acc name => (name, timestamp) :: acc) s.monitor_stack
          preempted_monitors := [] }
        s.idleForward executor_id timestamp
      else ({ s with executors := executors' }, false)
    | none => s.idleForward executor_id timestamp

/-- `CoreTracing::on_drop`. -/
def on_drop (s : CoreTracing) (timestamp : Nat) : CoreTracing :=
  let s := { s with
    executors := s.executors.map
      (fun p : Nat × ExecutorTracing => (p.1, p.2.on_drop timestamp)) }
  let s := s.monitor_stack.foldl
    (fun acc m => acc.send (acc.monitorComplete m.1 m.2 timestamp 0)) s
  let s := { s with monitor_stack := [] }
  s.end_state none timestamp

end CoreTracing

/-! ## Decoded events as the CLI consumes them
(rustmeter-cli/src/tracing/tracing_instance.rs)

The CLI is built against the protocol revision in which `TaskReady` and
`TaskExecBegin` also carry the short executor ID and a `DataLossEvent`
exists; the variants and fields below are the ones its `match` arms
destructure.  Names arrive as `String`s (already decoded from the wire). -/

inductive HostTypeDefinitionPayload where
  | EmbassyTaskCreated (task_id executor_id_long executor_id_short : Nat)
  | EmbassyTaskEnded (task_id executor_id_long executor_id_short : Nat)
  | FunctionMonitor (monitor_id fn_address : Nat)
  | ScopeMonitor (monitor_id : Nat) (name : String)
  | ValueMonitor (value_id type_id : Nat) (name : String)
  deriving DecidableEq, Repr

inductive HostEventPayload where
  | EmbassyTaskReady (task_id executor_id : Nat)
  | EmbassyTaskExecBeginCore0 (task_id executor_id : Nat)
  | EmbassyTaskExecBeginCore1 (task_id executor_id : Nat)
  | EmbassyTaskExecEndCore0 (executor_id : Nat)
  | EmbassyTaskExecEndCore1 (executor_id : Nat)
  | EmbassyExecutorPollStart (executor_id : Nat)
  | EmbassyExecutorIdle (executor_id : Nat)
  | MonitorStartCore0 (monitor_id : Nat)
  | MonitorStartCore1 (monitor_id : Nat)
  | MonitorEndCore0
  | MonitorEndCore1
  | MonitorValue (value_id : Nat) (value : Beacon.MonitorValuePayload)
  | TypeDefinition (def_ : HostTypeDefinitionPayload)
  | DataLossEvent (dropped_events : Nat)
  deriving DecidableEq, Repr

/-- `format!("{:X}", n)`: uppercase hexadecimal. -/
def formatHexUpper (n : Nat) : String :=
  (String.mk (Nat.toDigits 16 n)).toUpper

/-- The symbol-resolver fallback pattern
`fw_addr_map.get_symbol_name(addr).unwrap_or(format!("Kind 0x{:X}", addr))`. -/
def resolveName (fw : Nat → Option String) (kind : String) (addr : Nat) : String :=
  (fw addr).getD (kind ++ " 0x" ++ formatHexUpper addr)

/-- `TracingInstance` (rustmeter-cli/src/tracing/tracing_instance.rs).  The
ELF symbol table (`FirmwareAddressMap`, an external interface) is a lookup
function. -/
structure TracingInstance where
  latest_timestamp : Nat
  core_0 : CoreTracing
  core_1 : CoreTracing
  fw_addr_map : Nat → Option String
  monitor_value_names : List (Nat × String)
  monitor_code_names : List (Nat × String)
  out : List TracingEvent

namespace TracingInstance

def send (s : TracingInstance) (e : TracingEvent) : TracingInstance :=
  { s with out := s.out ++ [e] }

/-- `TracingInstance::new`: fresh cores plus the initial core-overview
metadata records. -/
def new (fw_addr_map : Nat → Option String) : TracingInstance :=
  { latest_timestamp := 0
    core_0 := CoreTracing.new 0
    core_1 := CoreTracing.new 1
    fw_addr_map := fw_addr_map
    monitor_value_names := []
    monitor_code_names := []
    out :=
      [TracingEvent.Metadata "process_name" (some "core_overview") (u32MAX - 1) none,
        TracingEvent.Metadata "thread_name" (some "core_overview") (u32MAX - 1) (some 1),
        TracingEvent.Metadata "thread_name" (some "core_overview") (u32MAX - 1) (some 2),
        TracingEvent.Metadata "process_name" (some "core_overview") u32MAX none] }

/-- The `self.core_0.f(..)?; self.core_1.f(..)?;` pattern: feed both cores,
stopping (with the first core's mutation retained) if the first one errors. -/
def feedBothCores (s : TracingInstance) (f : CoreTracing → CoreTracing × Bool) :
    TracingInstance × Bool :=
  let (c0, ok0) := f s.core_0
  let s := { s with core_0 := c0 }
  if ok0 then
    let (c1, ok1) := f s.core_1
    ({ s with core_1 := c1 }, ok1)
  else (s, false)

/-- `TracingInstance::handle_typedef`. -/
def handle_typedef (s : TracingInstance) (typedef : HostTypeDefinitionPayload)
    (timestamp : Nat) : TracingInstance × Bool :=
  match typedef with
  | HostTypeDefinitionPayload.EmbassyTaskCreated task_id _executor_id_long
      executor_id_short =>
    let s := s.send (TracingEvent.Metadata "process_name" (some "embassy_executor")
      executor_id_short (some 0))
    let s := s.send (TracingEvent.Metadata "thread_name" (some "embassy_task")
      executor_id_short (some (Beacon.compressed_task_id task_id)))
    s.feedBothCores (fun c => c.on_task_new_spawned executor_id_short
      (Beacon.compressed_task_id task_id) timestamp)
  | HostTypeDefinitionPayload.EmbassyTaskEnded task_id executor_id_long
      executor_id_short =>
    let s := s.send (TracingEvent.Metadata
      (resolveName s.fw_addr_map "Executor" executor_id_long)
      (some "embassy_executor") executor_id_short none)
    let s := s.send (TracingEvent.Metadata
      (resolveName s.fw_addr_map "Task" task_id)
      (some "embassy_task") executor_id_short
      (some (Beacon.compressed_task_id task_id)))
    s.feedBothCores (fun c => c.on_task_end executor_id_short
      (Beacon.compressed_task_id task_id) timestamp)
  | HostTypeDefinitionPayload.ValueMonitor value_id _type_id name =>
    ({ s with monitor_value_names := insertAssoc s.monitor_value_names value_id name },
      true)
  | HostTypeDefinitionPayload.FunctionMonitor monitor_id fn_address =>
    let fn_name := resolveName s.fw_addr_map "Function" fn_address
    ({ s with monitor_code_names := insertAssoc s.monitor_code_names monitor_id fn_name },
      true)
  | HostTypeDefinitionPayload.ScopeMonitor monitor_id name =>
    ({ s with monitor_code_names := insertAssoc s.monitor_code_names monitor_id name },
      true)

/-- `TracingInstance::handle_event_payloads`. -/
def handle_event_payloads (s : TracingInstance) (payload : HostEventPayload)
    (timestamp : Nat) : TracingInstance × Bool :=
  match payload with
  | HostEventPayload.EmbassyTaskReady task_id executor_id =>
    s.feedBothCores (fun c => c.on_task_ready executor_id task_id timestamp)
  | HostEventPayload.EmbassyExecutorPollStart executor_id =>
    s.feedBothCores (fun c => c.on_executor_poll_start executor_id timestamp)
  | HostEventPayload.EmbassyExecutorIdle executor_id =>
    s.feedBothCores (fun c => c.on_executor_idle executor_id timestamp)
  | HostEventPayload.EmbassyTaskExecBeginCore0 task_id executor_id =>
    let (c0, ok) := s.core_0.on_task_exec_begin executor_id task_id timestamp
    ({ s with core_0 := c0 }, ok)
  | HostEventPayload.EmbassyTaskExecBeginCore1 task_id executor_id =>
    let (c1, ok) := s.core_1.on_task_exec_begin executor_id task_id timestamp
    ({ s with core_1 := c1 }, ok)
  | HostEventPayload.EmbassyTaskExecEndCore0 executor_id =>
    let (c0, ok) := s.core_0.on_task_exec_end executor_id timestamp
    ({ s with core_0 := c0 }, ok)
  | HostEventPayload.EmbassyTaskExecEndCore1 executor_id =>
    let (c1, ok) := s.core_1.on_task_exec_end executor_id timestamp
    ({ s with core_1 := c1 }, ok)
  | HostEventPayload.TypeDefinition typedef => s.handle_typedef typedef timestamp
  | HostEventPayload.DataLossEvent _ => (s, true)
  | HostEventPayload.MonitorStartCore0 monitor_id =>
    match s.monitor_code_names.lookup monitor_id with
    | some name => ({ s with core_0 := s.core_0.monitor_start name timestamp }, true)
    | none => (s, true)
  | HostEventPayload.MonitorStartCore1 monitor_id =>
    match s.monitor_code_names.lookup monitor_id with
    | some name => ({ s with core_1 := s.core_1.monitor_start name timestamp }, true)
    | none => (s, true)
  | HostEventPayload.MonitorEndCore0 =>
    ({ s with core_0 := s.core_0.monitor_end timestamp }, true)
  | HostEventPayload.MonitorEndCore1 =>
    ({ s with core_1 := s.core_1.monitor_end timestamp }, true)
  | HostEventPayload.MonitorValue value_id _value =>
    match s.monitor_value_names.lookup value_id with
    | some name =>
      (s.send (TracingEvent.Counter name none (some u32MAX) timestamp), true)
    | none => (s, true)

/-- `TracingInstance::on_desynchronize`: desynchronize **both** cores, then
(`panic_by_resync` aside, modelled as `none`) drop and recreate both
`CoreTracing`s. -/
def on_desynchronize (s : TracingInstance) (timestamp : Nat)
    (panic_by_resync : Bool) : Option TracingInstance :=
  let s := { s with
    core_0 := s.core_0.on_desynchronize timestamp
    core_1 := s.core_1.on_desynchronize timestamp }
  if panic_by_resync then none
  else some { s with core_0 := CoreTracing.new 0, core_1 := CoreTracing.new 1 }

/-- `TracingInstance::feed` on a decoded `(timestamp, payload)` item:
data-loss events and event-handling errors trigger desynchronization. -/
def feed (s : TracingInstance) (timestamp : Nat) (payload : HostEventPayload)
    (panic_by_resync : Bool) : Option TracingInstance :=
  let s := { s with latest_timestamp := timestamp }
  match payload with
  | HostEventPayload.DataLossEvent _ => s.on_desynchronize timestamp panic_by_resync
  | _ =>
    let (s', ok) := s.handle_event_payloads payload timestamp
    if ok then some s' else s'.on_desynchronize timestamp panic_by_resync

end TracingInstance

/-! ## Host stream decoder (rustmeter-cli/src/tracing/trace_data_decoder.rs)

`decode` is parametric in the record parser (the CLI's `read_tracing_event`
revision is not part of the sources; the in-repo codec instantiates it
below).  A parser maps the monitor dictionary and the unread bytes to a
`((time delta, payload), consumed bytes)` triple; on failure the cursor is
left at the record start (modelled from the spec: partial bytes of a
truncated record remain buffered for the next feed). -/

def RecordParser (α : Type) : Type :=
  List (Nat × Nat) → List Nat → Option ((Nat × α) × Nat)

structure TraceDataDecoder where
  internal_buffer : List Nat
  /-- registered monitors for decoding monitor values (monitor ID → type ID) -/
  monitors : List (Nat × Nat)
  last_timestamp : Nat
  deriving DecidableEq, Repr

/-- The decoding loop of `TraceDataDecoder::decode`: parse records, advance
the timestamp, learn ValueMonitor type definitions, and stop on a parse
failure or when fewer than 100 unread bytes remain.  `fuel` bounds the
iteration count (each parsed record consumes at least one byte, so
`buffer length + 1` is always enough). -/
def decodeLoop {α : Type} (parse : RecordParser α)
    (valueMonitorDef : α → Option (Nat × Nat)) :
    Nat → List Nat → List (Nat × Nat) → Nat → List (Nat × α) →
      List (Nat × α) × List Nat × List (Nat × Nat) × Nat
  | 0, rest, monitors, last_timestamp, items => (items, rest, monitors, last_timestamp)
  | fuel + 1, rest, monitors, last_timestamp, items =>
    match parse monitors rest with
    | none => (items, rest, monitors, last_timestamp)
    | some ((timedelta, payload), consumed) =>
      let timestamp := last_timestamp + timedelta
      let monitors' :=
        match valueMonitorDef payload with
        | some (value_id, type_id) => insertAssoc monitors value_id type_id
        | none => monitors
      let items' := items ++ [(timestamp, payload)]
      let rest' := rest.drop consumed
      if rest'.length < 100 then (items', rest', monitors', timestamp)
      else decodeLoop parse valueMonitorDef fuel rest' monitors' timestamp items'

namespace TraceDataDecoder

def new : TraceDataDecoder :=
  { internal_buffer := [], monitors := [], last_timestamp := 0 }

/-- `TraceDataDecoder::feed`. -/
def feed (d : TraceDataDecoder) (data : List Nat) : TraceDataDecoder :=
  { d with internal_buffer := d.internal_buffer ++ data }

/-- `TraceDataDecoder::decode`: nothing is decoded while fewer than 100 bytes
are buffered; afterwards the consumed prefix is drained. -/
def decode {α : Type} (parse : RecordParser α)
    (valueMonitorDef : α → Option (Nat × Nat)) (d : TraceDataDecoder) :
    List (Nat × α) × TraceDataDecoder :=
  if d.internal_buffer.length < 100 then ([], d)
  else
    let r := decodeLoop parse valueMonitorDef (d.internal_buffer.length + 1)
      d.internal_buffer d.monitors d.last_timestamp []
    (r.1, { internal_buffer := r.2.1, monitors := r.2.2.1, last_timestamp := r.2.2.2 })

end TraceDataDecoder

/-- One `<time-delta><event-header><payload>` record parsed with the in-repo
codec (`read_tracing_event` composed of `TimeDelta::read_bytes` and
`EventPayload::from_bytes`), with the monitor-value reader looking the value
type up in the decoder's dictionary; consumed length recovered from the
cursor. -/
def beaconRecordParse : RecordParser Beacon.EventPayload := fun monitors bs =>
  match Beacon.TimeDelta.read_bytes bs with
  | none => none
  | some (timedelta, bs1) =>
    match Beacon.readByte bs1 with
    | none => none
    | some (event_type, bs2) =>
      match Beacon.EventPayload.from_bytes event_type bs2
          (fun value_id rem => (monitors.lookup value_id).bind
            (fun type_id => Beacon.MonitorValuePayload.from_bytes type_id rem)) with
      | none => none
      | some (payload, bs3) => some ((timedelta, payload), bs.length - bs3.length)

/-- The ValueMonitor type-definition extraction `decode` uses to maintain its
monitor dictionary. -/
def beaconValueMonitorDef : Beacon.EventPayload → Option (Nat × Nat)
  | Beacon.EventPayload.TypeDefinition
      (Beacon.TypeDefinitionPayload.ValueMonitor value_id type_id _) =>
    some (value_id, type_id)
  | _ => none

/-! ## Target executor registry
(rustmeter-beacon-target/src/executor_registry.rs and embassy_trace.rs)

Sequential semantics of the 8 `AtomicU32` slots (`0` = unused): a matching
load returns the slot index, a CAS of `0 → executor_id` claims a free slot
(uncontended, the CAS always succeeds). -/

def lookupOrRegisterAux (slots : List Nat) (executor_id : Nat) :
    Option (Nat × List Nat) :=
  match slots with
  | [] => none
  | slot :: rest =>
    if slot = executor_id then some (0, slot :: rest)
    else if slot = 0 then some (0, executor_id :: rest)
    else (lookupOrRegisterAux rest executor_id).map
      (fun r => (r.1 + 1, slot :: r.2))

/-- `ExecutorRegistry::lookup_or_register`: slot index (the short executor
ID) and updated slots, `none` when all 8 slots hold other IDs. -/
def lookup_or_register (slots : List Nat) (executor_id : Nat) :
    Option (Nat × List Nat) :=
  lookupOrRegisterAux slots executor_id

/-- `_embassy_trace_poll_start` (rustmeter-beacon-target/src/embassy_trace.rs):
`lookup_or_register(executor_id).unwrap()` then `write_tracing_event`.
`none` models the `unwrap` panic; `some (event, slots')` is the emitted
event and the updated registry. -/
def embassy_trace_poll_start (slots : List Nat) (executor_id : Nat) :
    Option (Beacon.EventPayload × List Nat) :=
  (lookup_or_register slots executor_id).map
    (fun r => (Beacon.EventPayload.EmbassyExecutorPollStart r.1, r.2))

/-! ## Executor-level event steps (for the running-task invariant)

Every `ExecutorTracing` entry point the reconstruction engine can invoke
while processing decoded events, as one step function. -/

inductive ExecEvent where
  | taskNewSpawned (task_id timestamp : Nat)
  | taskReady (task_id timestamp : Nat)
  | taskExecBegin (task_id timestamp : Nat)
  | taskExecEnd (timestamp : Nat)
  | taskEnd (timestamp task_id : Nat)
  | pollStart (timestamp : Nat)
  | idle (timestamp : Nat)
  | preempted (timestamp by_executor_id : Nat)
  | resume (timestamp : Nat)
  | desynchronize (timestamp : Nat)
  | monitorStart (name : String) (timestamp : Nat)
  | monitorEnd (timestamp : Nat)
  | dropEvent (timestamp : Nat)
  deriving DecidableEq, Repr

def execStep (s : ExecutorTracing) (e : ExecEvent) : ExecutorTracing :=
  match e with
  | ExecEvent.taskNewSpawned task_id timestamp =>
    (s.on_task_new_spawned task_id timestamp).1
  | ExecEvent.taskReady task_id timestamp => (s.on_task_ready task_id timestamp).1
  | ExecEvent.taskExecBegin task_id timestamp =>
    (s.on_task_exec_begin task_id timestamp).1
  | ExecEvent.taskExecEnd timestamp => (s.on_task_exec_end timestamp).1
  | ExecEvent.taskEnd timestamp task_id => (s.on_task_end timestamp task_id).1
  | ExecEvent.pollStart timestamp => (s.on_poll_start timestamp).1
  | ExecEvent.idle timestamp => (s.on_idle timestamp).1
  | ExecEvent.preempted timestamp by_executor_id =>
    (s.on_preempted timestamp by_executor_id).1
  | ExecEvent.resume timestamp => (s.on_resume timestamp).1
  | ExecEvent.desynchronize timestamp => s.on_desynchronize timestamp
  | ExecEvent.monitorStart name timestamp => s.on_monitor_start name timestamp
  | ExecEvent.monitorEnd timestamp => s.on_monitor_end timestamp
  | ExecEvent.dropEvent timestamp => s.on_drop timestamp

def execRun (s : ExecutorTracing) (evs : List ExecEvent) : ExecutorTracing :=
  evs.foldl execStep s

/-- The number of tracked tasks in the `Running` state. -/
def runningTasks (l : List (Nat × TaskTracing)) : Nat :=
  (l.filter (fun p => p.2.state.isRunning)).length

/-- The claimed invariant: at most one task of the executor is `Running`. -/
def atMostOneRunning (s : ExecutorTracing) : Prop :=
  runningTasks s.tasks ≤ 1

/-- The inductive strengthening: additionally, a `Preempted` executor has no
running task (its running task was preempted with it). -/
def StrongInv (s : ExecutorTracing) : Prop :=
  runningTasks s.tasks ≤ 1
    ∧ ∀ b p, s.current_state = ExecutorState.Preempted b p → runningTasks s.tasks = 0

/-! ## Concrete inputs used by the counterexamples and witnesses -/

/-- An empty ELF symbol table. -/
def noSymbols : Nat → Option String := fun _ => none

/-- Engine state after task 1 began on executor 0 / core 0 (t=10) and task 2
began on executor 1 / core 1 (t=20). -/
def c3Setup : TracingInstance :=
  (((TracingInstance.new noSymbols).handle_event_payloads
      (HostEventPayload.EmbassyTaskExecBeginCore0 1 0) 10).1.handle_event_payloads
    (HostEventPayload.EmbassyTaskExecBeginCore1 2 1) 20).1

/-- Feeding a core-0 illegal transition (task 3 exec-begin while task 1 is
running on executor 0) into `c3Setup`. -/
def c3After : Option TracingInstance :=
  c3Setup.feed 30 (HostEventPayload.EmbassyTaskExecBeginCore0 3 0) false

/-- The result of feeding a `DataLoss` event into a fresh engine. -/
def dataLossFeedResult : Option TracingInstance :=
  (TracingInstance.new noSymbols).feed 7 (HostEventPayload.DataLossEvent 3) false

def dataLossInstance : TracingInstance :=
  dataLossFeedResult.getD (TracingInstance.new noSymbols)

/-- A running task with two nested open code monitors, "a" (outer, opened at
10) below "b" (inner, opened at 20). -/
def c4Task : TaskTracing :=
  ((TaskTracing.new_exec_begin 0 100 0).on_monitor_start "a" 10).on_monitor_start "b" 20

def c4Resumed : TaskTracing :=
  ((c4Task.on_preempted 30 1).1.on_resumed 40).1

/-- A wire buffer whose first record has an unknown event kind (header byte
`0xF8`, event ID 31) followed by 33 well-formed `MonitorEndCore0` records:
102 bytes in total. -/
def c8buf : List Nat :=
  [0, 0, 0xF8] ++ (List.replicate 33 [0, 0, 72]).flatten

/-- 34 well-formed `MonitorEndCore0` records (102 bytes). -/
def c10buf : List Nat :=
  (List.replicate 34 [0, 0, 72]).flatten

/-- A decoder left with the 99 trailing bytes of `c10buf` (33 complete
well-formed records) after its first record was decoded and drained. -/
def c10rest : TraceDataDecoder :=
  TraceDataDecoder.mk (c10buf.drop 3) [] 0

/-- A registry whose 8 slots all hold other long executor IDs. -/
def fullSlots : List Nat := [1, 2, 3, 4, 5, 6, 7, 8]

end Host

end Rustmeter

/-! # Theorems -/

namespace Rustmeter

namespace Beacon

/-! Arithmetic views of the bit operations used by the codec. -/

theorem and_mask15_eq_mod (d : Nat) : d &&& 0x7FFF = d % 2 ^ 15 := by
  have h := Nat.and_pow_two_sub_one_eq_mod d 15
  norm_num at h ⊢
  exact h

theorem and_mask31_eq_mod (d : Nat) : d &&& 0x7FFFFFFF = d % 2 ^ 31 := by
  have h := Nat.and_pow_two_sub_one_eq_mod d 31
  norm_num at h ⊢
  exact h

theorem and_bit7_eq_zero_iff (b : Nat) : b &&& 0x80 = 0 ↔ b / 2 ^ 7 % 2 = 0 := by
  have h : b &&& 0x80 = (b.testBit 7).toNat * 2 ^ 7 := by
    have := Nat.and_two_pow b 7
    norm_num at this ⊢
    exact this
  rw [h, Nat.testBit_to_div_mod]
  rcases Nat.mod_two_eq_zero_or_one (b / 2 ^ 7) with h2 | h2 <;> simp [h2]

theorem or_high_bit_eq_add {c : Nat} (h : c < 2 ^ 31) :
    c ||| 0x80000000 = 2 ^ 31 + c := by
  have h1 : (2 : Nat) ^ 31 * 1 + c = 2 ^ 31 * 1 ||| c := Nat.mul_add_lt_is_or h 1
  have h2 : c ||| 0x80000000 = 0x80000000 ||| c := Nat.or_comm _ _
  norm_num at h1 h2 ⊢
  omega

theorem timeDelta_read_short (b0 b1 : Nat) (h : b0 &&& 0x80 = 0) (rest : List Nat) :
    TimeDelta.read_bytes (b0 :: b1 :: rest)
      = some (u16_from_be_bytes b0 b1, rest) := by
  simp [TimeDelta.read_bytes, readByte, h]

theorem timeDelta_read_ext (b0 b1 b2 b3 : Nat) (h : ¬ b0 &&& 0x80 = 0)
    (rest : List Nat) :
    TimeDelta.read_bytes (b0 :: b1 :: b2 :: b3 :: rest)
      = some (u32_from_be_bytes b0 b1 b2 b3 &&& 0x7FFFFFFF, rest) := by
  simp [TimeDelta.read_bytes, readByte, readChunk2, h]

/-- C1: for every 32-bit delta `d`, decoding the encoding of `d` yields
`min d (2^31 - 1)` and leaves the rest of the input untouched, and the
encoded length is 2 when `d < 2^15` and 4 otherwise. -/
theorem timeDelta_roundtrip (d : Nat) (hd : d < 2 ^ 32) (rest : List Nat) :
    TimeDelta.read_bytes (TimeDelta.write_bytes d ++ rest)
        = some (min d (2 ^ 31 - 1), rest)
      ∧ (TimeDelta.write_bytes d).length = if d < 2 ^ 15 then 2 else 4 := by
  by_cases hshort : d < 2 ^ 15
  · have hext : TimeDelta.is_extended d = false := by
      simp [TimeDelta.is_extended]; omega
    have hmask : d &&& 0x7FFF = d := by
      rw [and_mask15_eq_mod]; omega
    have hb0 : d / 2 ^ 8 % 256 = d / 2 ^ 8 := by omega
    have hw : TimeDelta.write_bytes d = [d / 2 ^ 8, d % 256] := by
      unfold TimeDelta.write_bytes
      rw [hext, if_neg Bool.false_ne_true]
      show u16_to_be_bytes (d &&& 0x7FFF) = _
      rw [hmask]
      simp only [u16_to_be_bytes, hb0]
    have hb0low : (d / 2 ^ 8) &&& 0x80 = 0 := by
      rw [and_bit7_eq_zero_iff]; omega
    have hval : u16_from_be_bytes (d / 2 ^ 8) (d % 256) = d := by
      simp only [u16_from_be_bytes]; omega
    have hmin : min d (2 ^ 31 - 1) = d := Nat.min_eq_left (by omega)
    constructor
    · rw [hw]
      simp only [List.cons_append, List.nil_append]
      rw [timeDelta_read_short _ _ hb0low, hval, hmin]
    · rw [hw, if_pos hshort]
      rfl
  · have hext : TimeDelta.is_extended d = true := by
      simp [TimeDelta.is_extended]; omega
    have hcmin : (if d > 2 ^ 31 - 1 then 2 ^ 31 - 1 else d) = min d (2 ^ 31 - 1) := by
      rcases Nat.lt_or_ge d (2 ^ 31) with h | h
      · rw [if_neg (by omega), Nat.min_eq_left (by omega)]
      · rw [if_pos (by omega), Nat.min_eq_right (by omega)]
    set c : Nat := min d (2 ^ 31 - 1) with hc
    have hclt : c < 2 ^ 31 := by omega
    have hor : c ||| 0x80000000 = 2 ^ 31 + c := or_high_bit_eq_add hclt
    set v : Nat := 2 ^ 31 + c with hv
    have hb0 : v / 2 ^ 24 % 256 = v / 2 ^ 24 := by omega
    have hw : TimeDelta.write_bytes d
        = [v / 2 ^ 24, v / 2 ^ 16 % 256, v / 2 ^ 8 % 256, v % 256] := by
      unfold TimeDelta.write_bytes
      rw [hext, if_pos rfl]
      show u32_to_be_bytes ((if d > 2 ^ 31 - 1 then 2 ^ 31 - 1 else d) ||| 0x80000000) = _
      rw [hcmin, hor]
      simp only [u32_to_be_bytes, hb0]
    have hb0hi : ¬ (v / 2 ^ 24) &&& 0x80 = 0 := by
      rw [and_bit7_eq_zero_iff]; omega
    have hrec : u32_from_be_bytes (v / 2 ^ 24) (v / 2 ^ 16 % 256) (v / 2 ^ 8 % 256)
        (v % 256) = v := by
      simp only [u32_from_be_bytes]; omega
    constructor
    · rw [hw]
      simp only [List.cons_append, List.nil_append]
      rw [timeDelta_read_ext _ _ _ _ hb0hi, hrec, and_mask31_eq_mod]
      have : v % 2 ^ 31 = c := by omega
      rw [this]
    · rw [hw, if_neg hshort]
      rfl

/-- Witness for C1 at concrete inputs covering both formats. -/
theorem timeDelta_roundtrip_witness :
    (40000 : Nat) < 2 ^ 32
      ∧ (TimeDelta.read_bytes (TimeDelta.write_bytes 40000 ++ [7])
            = some (min 40000 (2 ^ 31 - 1), [7])
          ∧ (TimeDelta.write_bytes 40000).length = if 40000 < 2 ^ 15 then 2 else 4) :=
  ⟨by norm_num, timeDelta_roundtrip 40000 (by norm_num) [7]⟩

/-! Round-trip lemmas for the serialization primitives. -/

theorem readBytesN_le (w n : Nat) (rest : List Nat) :
    readBytesN w (nat_to_le_bytes w n ++ rest) = some (nat_to_le_bytes w n, rest) := by
  induction w generalizing n with
  | zero => rfl
  | succ w' ih => simp [nat_to_le_bytes, readBytesN, readByte, ih]

theorem nat_from_to_le (w n : Nat) (h : n < 2 ^ (8 * w)) :
    nat_from_le_bytes (nat_to_le_bytes w n) = n := by
  induction w generalizing n with
  | zero =>
    simp only [nat_to_le_bytes, nat_from_le_bytes]
    omega
  | succ w' ih =>
    have hpow : (2 : Nat) ^ (8 * (w' + 1)) = 2 ^ (8 * w') * 256 := by
      rw [show 8 * (w' + 1) = 8 * w' + 8 by ring, pow_add]
      norm_num
    simp only [nat_to_le_bytes, nat_from_le_bytes]
    rw [ih (n / 256) (by omega)]
    omega

theorem readNullTerminated_name (name rest : List Nat)
    (h : ∀ b ∈ name, b ≠ 0) :
    readNullTerminated (name ++ 0 :: rest) = some (name, rest) := by
  induction name with
  | nil => simp [readNullTerminated]
  | cons b t ih =>
    have hb : b ≠ 0 := h b (by simp)
    simp [readNullTerminated, hb, ih (fun x hx => h x (by simp [hx]))]

theorem shift3_or_decomp (i e : Nat) (he : e < 8) :
    (i <<< 3 ||| e) >>> 3 = i ∧ (i <<< 3 ||| e) &&& 0x07 = e := by
  have h1 : i <<< 3 = 2 ^ 3 * i := by
    rw [Nat.shiftLeft_eq]; ring
  have h2 : 2 ^ 3 * i ||| e = 2 ^ 3 * i + e := (Nat.mul_add_lt_is_or he i).symm
  have h3 : i <<< 3 ||| e = 8 * i + e := by rw [h1, h2]; norm_num
  constructor
  · rw [h3, Nat.shiftRight_eq_div_pow]
    norm_num
    omega
  · rw [h3]
    have h4 := Nat.and_pow_two_sub_one_eq_mod (8 * i + e) 3
    norm_num at h4
    rw [h4]
    omega

theorem int_to_2c_lt (w : Nat) (v : Int) : int_to_2c w v < 2 ^ (8 * w) := by
  unfold int_to_2c
  have hpos : (0 : Int) < (2 : Int) ^ (8 * w) := by positivity
  have h1 := Int.emod_nonneg v (ne_of_gt hpos)
  have h2 := Int.emod_lt_of_pos v hpos
  have hcast : ((2 ^ (8 * w) : Nat) : Int) = (2 : Int) ^ (8 * w) := by
    push_cast; rfl
  omega

theorem mvp_roundtrip (v : MonitorValuePayload) (h : v.wf) (rest : List Nat) :
    MonitorValuePayload.from_bytes v.type_id (v.write_bytes ++ rest)
      = some (v, rest) := by
  cases v with
  | U8 x =>
    simp [MonitorValuePayload.type_id, MonitorValuePayload.write_bytes,
      MonitorValuePayload.from_bytes, readByte]
  | U16 x =>
    have hx : x < 2 ^ (8 * 2) := by
      simp only [MonitorValuePayload.wf] at h; norm_num; omega
    simp [MonitorValuePayload.type_id, MonitorValuePayload.write_bytes,
      MonitorValuePayload.from_bytes, readBytesN_le, nat_from_to_le 2 x hx]
  | U32 x =>
    have hx : x < 2 ^ (8 * 4) := by
      simp only [MonitorValuePayload.wf] at h; norm_num; omega
    simp [MonitorValuePayload.type_id, MonitorValuePayload.write_bytes,
      MonitorValuePayload.from_bytes, readBytesN_le, nat_from_to_le 4 x hx]
  | U64 x =>
    have hx : x < 2 ^ (8 * 8) := by
      simp only [MonitorValuePayload.wf] at h; norm_num; omega
    simp [MonitorValuePayload.type_id, MonitorValuePayload.write_bytes,
      MonitorValuePayload.from_bytes, readBytesN_le, nat_from_to_le 8 x hx]
  | I8 x =>
    simp only [MonitorValuePayload.wf] at h
    have hv : int_from_2c 1 (int_to_2c 1 x) = x := by
      unfold int_from_2c int_to_2c
      norm_num
      split <;> omega
    simp [MonitorValuePayload.type_id, MonitorValuePayload.write_bytes,
      MonitorValuePayload.from_bytes, readByte, hv]
  | I16 x =>
    simp only [MonitorValuePayload.wf] at h
    have hlt : int_to_2c 2 x < 2 ^ (8 * 2) := int_to_2c_lt 2 x
    have hv : int_from_2c 2 (nat_from_le_bytes (nat_to_le_bytes 2 (int_to_2c 2 x))) = x := by
      rw [nat_from_to_le 2 _ hlt]
      unfold int_from_2c int_to_2c
      norm_num
      split <;> omega
    simp [MonitorValuePayload.type_id, MonitorValuePayload.write_bytes,
      MonitorValuePayload.from_bytes, readBytesN_le, hv]
  | I32 x =>
    simp only [MonitorValuePayload.wf] at h
    have hlt : int_to_2c 4 x < 2 ^ (8 * 4) := int_to_2c_lt 4 x
    have hv : int_from_2c 4 (nat_from_le_bytes (nat_to_le_bytes 4 (int_to_2c 4 x))) = x := by
      rw [nat_from_to_le 4 _ hlt]
      unfold int_from_2c int_to_2c
      norm_num
      split <;> omega
    simp [MonitorValuePayload.type_id, MonitorValuePayload.write_bytes,
      MonitorValuePayload.from_bytes, readBytesN_le, hv]
  | I64 x =>
    simp only [MonitorValuePayload.wf] at h
    have hlt : int_to_2c 8 x < 2 ^ (8 * 8) := int_to_2c_lt 8 x
    have hv : int_from_2c 8 (nat_from_le_bytes (nat_to_le_bytes 8 (int_to_2c 8 x))) = x := by
      rw [nat_from_to_le 8 _ hlt]
      unfold int_from_2c int_to_2c
      norm_num
      split <;> omega
    simp [MonitorValuePayload.type_id, MonitorValuePayload.write_bytes,
      MonitorValuePayload.from_bytes, readBytesN_le, hv]

theorem typedef_roundtrip (t : TypeDefinitionPayload) (h : t.wf) (rest : List Nat) :
    TypeDefinitionPayload.from_bytes t.type_id (t.bodyBytes ++ rest)
      = some (t, rest) := by
  cases t with
  | EmbassyTaskCreated task_id executor_id_long executor_id_short =>
    obtain ⟨h1, h2, h3⟩ := h
    have ht : task_id < 2 ^ (8 * 4) := by norm_num; omega
    have hl : executor_id_long < 2 ^ (8 * 4) := by norm_num; omega
    simp [TypeDefinitionPayload.type_id, TypeDefinitionPayload.bodyBytes,
      TypeDefinitionPayload.from_bytes, readBytesN_le, readByte,
      nat_from_to_le 4 _ ht, nat_from_to_le 4 _ hl, Nat.mod_eq_of_lt h3]
  | EmbassyTaskEnded task_id executor_id_long executor_id_short =>
    obtain ⟨h1, h2, h3⟩ := h
    have ht : task_id < 2 ^ (8 * 4) := by norm_num; omega
    have hl : executor_id_long < 2 ^ (8 * 4) := by norm_num; omega
    simp [TypeDefinitionPayload.type_id, TypeDefinitionPayload.bodyBytes,
      TypeDefinitionPayload.from_bytes, readBytesN_le, readByte,
      nat_from_to_le 4 _ ht, nat_from_to_le 4 _ hl, Nat.mod_eq_of_lt h3]
  | FunctionMonitor monitor_id fn_address =>
    obtain ⟨h1, h2⟩ := h
    have ha : fn_address < 2 ^ (8 * 4) := by norm_num; omega
    simp [TypeDefinitionPayload.type_id, TypeDefinitionPayload.bodyBytes,
      TypeDefinitionPayload.from_bytes, readBytesN_le, readByte,
      nat_from_to_le 4 _ ha]
  | ScopeMonitor monitor_id name =>
    obtain ⟨h1, h2⟩ := h
    have hname : ∀ b ∈ name, b ≠ 0 := fun b hb => by
      have := h2 b hb; omega
    simp [TypeDefinitionPayload.type_id, TypeDefinitionPayload.bodyBytes,
      TypeDefinitionPayload.from_bytes, readByte,
      readNullTerminated_name name rest hname]
  | ValueMonitor value_id type_id name =>
    obtain ⟨h1, h2, h3⟩ := h
    have hname : ∀ b ∈ name, b ≠ 0 := fun b hb => by
      have := h3 b hb; omega
    simp [TypeDefinitionPayload.type_id, TypeDefinitionPayload.bodyBytes,
      TypeDefinitionPayload.from_bytes, readByte,
      readNullTerminated_name name rest hname]

theorem executor_field_lt (p : EventPayload) (h : p.wf) :
    p.get_executor_id.getD 0 < 8 := by
  cases p <;> simp_all [EventPayload.get_executor_id, EventPayload.wf]

/-- C2: serializing a representable event payload and parsing the bytes back
(with a monitor-value reader primed with the payload's monitor type) yields
the payload unchanged; the event-header byte packs the 5-bit event kind in
its upper 5 bits and the 3-bit short executor ID in its lower 3 bits. -/
theorem eventPayload_roundtrip (p : EventPayload) (h : p.wf) (rest : List Nat) :
    EventPayload.from_bytes p.headerByte (p.bodyBytes ++ rest) p.primedReader
        = some (p, rest)
      ∧ EventPayload.write_bytes p = p.headerByte :: p.bodyBytes
      ∧ p.headerByte >>> 3 = p.event_id
      ∧ p.headerByte &&& 0x07 = p.get_executor_id.getD 0 := by
  have he := executor_field_lt p h
  obtain ⟨hid0, hexec0⟩ := shift3_or_decomp p.event_id (p.get_executor_id.getD 0) he
  have hid : p.headerByte >>> 3 = p.event_id := hid0
  have hexec : p.headerByte &&& 0x07 = p.get_executor_id.getD 0 := hexec0
  refine ⟨?_, rfl, hid, hexec⟩
  cases p with
  | EmbassyTaskReady task_id =>
    have hx : task_id < 2 ^ (8 * 2) := by norm_num; simpa [EventPayload.wf] using h
    simp [EventPayload.from_bytes, hid, EventPayload.event_id, EventPayload.bodyBytes,
      readBytesN_le, nat_from_to_le 2 _ hx]
  | EmbassyTaskExecBeginCore0 task_id =>
    have hx : task_id < 2 ^ (8 * 2) := by norm_num; simpa [EventPayload.wf] using h
    simp [EventPayload.from_bytes, hid, EventPayload.event_id, EventPayload.bodyBytes,
      readBytesN_le, nat_from_to_le 2 _ hx]
  | EmbassyTaskExecBeginCore1 task_id =>
    have hx : task_id < 2 ^ (8 * 2) := by norm_num; simpa [EventPayload.wf] using h
    simp [EventPayload.from_bytes, hid, EventPayload.event_id, EventPayload.bodyBytes,
      readBytesN_le, nat_from_to_le 2 _ hx]
  | EmbassyTaskExecEndCore0 executor_id =>
    simp [EventPayload.from_bytes, hid, EventPayload.event_id, EventPayload.bodyBytes,
      hexec, EventPayload.get_executor_id]
  | EmbassyTaskExecEndCore1 executor_id =>
    simp [EventPayload.from_bytes, hid, EventPayload.event_id, EventPayload.bodyBytes,
      hexec, EventPayload.get_executor_id]
  | EmbassyExecutorPollStart executor_id =>
    simp [EventPayload.from_bytes, hid, EventPayload.event_id, EventPayload.bodyBytes,
      hexec, EventPayload.get_executor_id]
  | EmbassyExecutorIdle executor_id =>
    simp [EventPayload.from_bytes, hid, EventPayload.event_id, EventPayload.bodyBytes,
      hexec, EventPayload.get_executor_id]
  | MonitorStartCore0 monitor_id =>
    simp [EventPayload.from_bytes, hid, EventPayload.event_id, EventPayload.bodyBytes,
      readByte]
  | MonitorStartCore1 monitor_id =>
    simp [EventPayload.from_bytes, hid, EventPayload.event_id, EventPayload.bodyBytes,
      readByte]
  | MonitorEndCore0 =>
    simp [EventPayload.from_bytes, hid, EventPayload.event_id, EventPayload.bodyBytes]
  | MonitorEndCore1 =>
    simp [EventPayload.from_bytes, hid, EventPayload.event_id, EventPayload.bodyBytes]
  | MonitorValue value_id value =>
    obtain ⟨h1, h2⟩ := h
    simp [EventPayload.from_bytes, hid, EventPayload.event_id, EventPayload.bodyBytes,
      readByte, EventPayload.primedReader, mvp_roundtrip value h2 rest]
  | TypeDefinition d =>
    simp [EventPayload.from_bytes, hid, EventPayload.event_id, EventPayload.bodyBytes,
      TypeDefinitionPayload.write_bytes, readByte, typedef_roundtrip d h rest]

/-- Witness for C2 at a concrete monitor-value payload. -/
theorem eventPayload_roundtrip_witness :
    EventPayload.wf (EventPayload.MonitorValue 5 (MonitorValuePayload.U16 48879))
      ∧ (EventPayload.from_bytes
            (EventPayload.MonitorValue 5 (MonitorValuePayload.U16 48879)).headerByte
            ((EventPayload.MonitorValue 5 (MonitorValuePayload.U16 48879)).bodyBytes ++ [9])
            (EventPayload.MonitorValue 5 (MonitorValuePayload.U16 48879)).primedReader
            = some (EventPayload.MonitorValue 5 (MonitorValuePayload.U16 48879), [9])
          ∧ EventPayload.write_bytes (EventPayload.MonitorValue 5 (MonitorValuePayload.U16 48879))
            = (EventPayload.MonitorValue 5 (MonitorValuePayload.U16 48879)).headerByte
              :: (EventPayload.MonitorValue 5 (MonitorValuePayload.U16 48879)).bodyBytes
          ∧ (EventPayload.MonitorValue 5 (MonitorValuePayload.U16 48879)).headerByte >>> 3
            = (EventPayload.MonitorValue 5 (MonitorValuePayload.U16 48879)).event_id
          ∧ (EventPayload.MonitorValue 5 (MonitorValuePayload.U16 48879)).headerByte &&& 0x07
            = (EventPayload.MonitorValue 5 (MonitorValuePayload.U16 48879)).get_executor_id.getD 0) :=
  ⟨by constructor <;> norm_num [EventPayload.wf, MonitorValuePayload.wf],
    eventPayload_roundtrip _ (by constructor <;> norm_num [EventPayload.wf, MonitorValuePayload.wf]) [9]⟩

/-- C7 counterexample: the legacy serializer in
`rustmeter-beacon-core/src/protocol.rs` (one of the claim's two cited
sources) writes the leading sub-kind byte 3 — not 2 — for a FunctionMonitor
type definition. -/
theorem typedef_legacy_subkind_cex :
    (TypeDefinitionPayload.legacy_write_bytes
        (TypeDefinitionPayload.FunctionMonitor 1 2)).head? = some 3
      ∧ (TypeDefinitionPayload.legacy_write_bytes
          (TypeDefinitionPayload.FunctionMonitor 1 2)).head? ≠ some 2 := by
  constructor <;> decide

/-- C7 (amended): the `protocol/typedef_payload.rs` codec serializes the
sub-kinds with leading bytes 0 (TaskCreated), 1 (TaskEnded),
2 (FunctionMonitor), 3 (ScopeMonitor), 4 (ValueMonitor) and its deserializer
maps those bytes back to the same variant; the coexisting legacy serializer
in `protocol.rs` instead numbers the monitor sub-kinds 3, 4, 5. -/
theorem typedef_subkind_codec :
    (∀ a b c, (TypeDefinitionPayload.EmbassyTaskCreated a b c).type_id = 0)
      ∧ (∀ a b c, (TypeDefinitionPayload.EmbassyTaskEnded a b c).type_id = 1)
      ∧ (∀ a b, (TypeDefinitionPayload.FunctionMonitor a b).type_id = 2)
      ∧ (∀ a n, (TypeDefinitionPayload.ScopeMonitor a n).type_id = 3)
      ∧ (∀ a b n, (TypeDefinitionPayload.ValueMonitor a b n).type_id = 4)
      ∧ (∀ t : TypeDefinitionPayload, t.wf → ∀ rest,
          TypeDefinitionPayload.write_bytes t = t.type_id :: t.bodyBytes
            ∧ TypeDefinitionPayload.from_bytes t.type_id (t.bodyBytes ++ rest)
              = some (t, rest))
      ∧ (∀ a b, (TypeDefinitionPayload.FunctionMonitor a b).legacy_type_id = 3)
      ∧ (∀ a n, (TypeDefinitionPayload.ScopeMonitor a n).legacy_type_id = 4)
      ∧ (∀ a b n, (TypeDefinitionPayload.ValueMonitor a b n).legacy_type_id = 5) :=
  ⟨fun _ _ _ => rfl, fun _ _ _ => rfl, fun _ _ => rfl, fun _ _ => rfl, fun _ _ _ => rfl,
    fun t h rest => ⟨rfl, typedef_roundtrip t h rest⟩,
    fun _ _ => rfl, fun _ _ => rfl, fun _ _ _ => rfl⟩

/-- Witness for C7's amended round-trip conjunct at a concrete scope
monitor definition. -/
theorem typedef_subkind_codec_witness :
    TypeDefinitionPayload.wf (TypeDefinitionPayload.ScopeMonitor 7 [116, 101])
      ∧ (TypeDefinitionPayload.write_bytes (TypeDefinitionPayload.ScopeMonitor 7 [116, 101])
            = (TypeDefinitionPayload.ScopeMonitor 7 [116, 101]).type_id
              :: (TypeDefinitionPayload.ScopeMonitor 7 [116, 101]).bodyBytes
          ∧ TypeDefinitionPayload.from_bytes
              (TypeDefinitionPayload.ScopeMonitor 7 [116, 101]).type_id
              ((TypeDefinitionPayload.ScopeMonitor 7 [116, 101]).bodyBytes ++ [1])
            = some (TypeDefinitionPayload.ScopeMonitor 7 [116, 101], [1])) :=
  ⟨by constructor <;> decide,
    typedef_subkind_codec.2.2.2.2.2.1 _ (by constructor <;> decide) [1]⟩

end Beacon

end Rustmeter

namespace Rustmeter

namespace Host

/-! Projection lemmas for the state-machine primitives. -/

theorem task_transition_state (t : TaskTracing) (st : TaskState) (ts : Nat) :
    (t.transition_to st ts).state = st := by
  unfold TaskTracing.transition_to
  split
  · assumption
  · rfl

theorem task_transition_current (t : TaskTracing) (st : TaskState) (ts : Nat) :
    (t.transition_to st ts).current_monitors = t.current_monitors := by
  unfold TaskTracing.transition_to
  split <;> rfl

theorem task_transition_preempted (t : TaskTracing) (st : TaskState) (ts : Nat) :
    (t.transition_to st ts).preempted_monitors = t.preempted_monitors := by
  unfold TaskTracing.transition_to
  split <;> rfl

theorem exec_transition_state (s : ExecutorTracing) (st : ExecutorState) (ts : Nat) :
    (s.transition_to st ts).current_state = st := by
  unfold ExecutorTracing.transition_to
  split
  · assumption
  · rfl

theorem exec_transition_tasks (s : ExecutorTracing) (st : ExecutorState) (ts : Nat) :
    (s.transition_to st ts).tasks = s.tasks := by
  unfold ExecutorTracing.transition_to
  split <;> rfl

/-! ## C9: executor-registry exhaustion on the emission path -/

theorem lookupOrRegisterAux_none (slots : List Nat) (executor_id : Nat)
    (h : ∀ s ∈ slots, s ≠ 0 ∧ s ≠ executor_id) :
    lookupOrRegisterAux slots executor_id = none := by
  induction slots with
  | nil => rfl
  | cons a rest ih =>
    obtain ⟨h0, hid⟩ := h a (by simp)
    have hid' : ¬ a = executor_id := hid
    simp [lookupOrRegisterAux, hid', h0, ih (fun x hx => h x (by simp [hx]))]

/-- C9 counterexample: with all 8 registry slots holding other long IDs,
`lookup_or_register` returns no slot and `_embassy_trace_poll_start` calls
`.unwrap()` on that `None` — it panics (modelled `none`) instead of dropping
the emission and returning. -/
theorem poll_start_registry_full_cex :
    lookup_or_register fullSlots 9 = none
      ∧ embassy_trace_poll_start fullSlots 9 = none := by
  constructor <;> rfl

/-- C9 (amended): when all 8 slots are occupied by other long IDs,
`lookup_or_register` returns no-slot and the poll-start emission path panics
on its `unwrap` (no event is written, and the instrumentation point does not
return normally). -/
theorem poll_start_registry_full_panics (slots : List Nat) (executor_id : Nat)
    (h : ∀ s ∈ slots, s ≠ 0 ∧ s ≠ executor_id) :
    lookup_or_register slots executor_id = none
      ∧ embassy_trace_poll_start slots executor_id = none := by
  have hn := lookupOrRegisterAux_none slots executor_id h
  exact ⟨hn, by simp [embassy_trace_poll_start, lookup_or_register, hn]⟩

/-- Witness for C9's amended statement on the concrete full registry. -/
theorem poll_start_registry_full_panics_witness :
    (∀ s ∈ fullSlots, s ≠ 0 ∧ s ≠ (9 : Nat))
      ∧ (lookup_or_register fullSlots 9 = none
          ∧ embassy_trace_poll_start fullSlots 9 = none) :=
  ⟨by decide, poll_start_registry_full_panics fullSlots 9 (by decide)⟩

/-! ## C3: desynchronization is not core-local -/

theorem on_desynchronize_false_cores (s : TracingInstance) (ts : Nat) (s' : TracingInstance)
    (h : s.on_desynchronize ts false = some s') :
    s'.core_0 = CoreTracing.new 0 ∧ s'.core_1 = CoreTracing.new 1 := by
  simp only [TracingInstance.on_desynchronize, Bool.false_eq_true, if_false,
    Option.some.injEq] at h
  rw [← h]
  exact ⟨rfl, rfl⟩

/-- C3 counterexample: a core-0 illegal transition (task-exec-begin while
another task is running on that executor) desynchronizes the engine, and the
*other* core's executor map is dropped too — it does not continue
unaffected. -/
theorem desync_not_core_local_cex :
    c3Setup.core_1.executors ≠ []
      ∧ c3After.map (fun s => s.core_1.executors) = some []
      ∧ c3After.map (fun s => s.core_1.executors) ≠ some c3Setup.core_1.executors := by
  refine ⟨by decide, by decide, by decide⟩

/-- C3 (amended): desynchronization — whether triggered by a DataLoss event
or by an event-handling error — resets **both** cores: after `feed` returns,
both `CoreTracing`s are fresh (`executors`, monitor stacks and all). -/
theorem desync_resets_both_cores (s : TracingInstance) (timestamp : Nat) :
    (∀ n s', s.feed timestamp (HostEventPayload.DataLossEvent n) false = some s' →
        s'.core_0 = CoreTracing.new 0 ∧ s'.core_1 = CoreTracing.new 1)
      ∧ (∀ payload s',
          ({ s with latest_timestamp := timestamp }.handle_event_payloads
              payload timestamp).2 = false →
          s.feed timestamp payload false = some s' →
          s'.core_0 = CoreTracing.new 0 ∧ s'.core_1 = CoreTracing.new 1) := by
  constructor
  · intro n s' h
    exact on_desynchronize_false_cores _ _ _ h
  · intro payload s' hfail h
    cases payload <;>
      simp only [TracingInstance.feed] at h <;>
      (try (rw [hfail] at h
            simp only [Bool.false_eq_true, if_false] at h)) <;>
      exact on_desynchronize_false_cores _ _ _ h

/-- Witness for C3's amended statement: feeding a concrete DataLoss event. -/
theorem desync_resets_both_cores_witness :
    dataLossFeedResult = some dataLossInstance
      ∧ (dataLossInstance.core_0 = CoreTracing.new 0
          ∧ dataLossInstance.core_1 = CoreTracing.new 1) :=
  ⟨rfl, (desync_resets_both_cores (TracingInstance.new noSymbols) 7).1 3
    dataLossInstance rfl⟩

/-! ## C8 and C10: the stream decoder's windowing and failure behavior -/

/-- C8 (amended): whatever the parse failure (truncated record or corrupt
byte alike), `decode` simply stops at the failed record: nothing is skipped,
and the unconsumed bytes (the failed record included) stay buffered for the
next feed.  No one-byte resynchronization is attempted. -/
theorem decoder_stops_on_parse_failure {α : Type} (parse : RecordParser α)
    (vmd : α → Option (Nat × Nat)) (d : TraceDataDecoder)
    (h100 : 100 ≤ d.internal_buffer.length)
    (hp : parse d.monitors d.internal_buffer = none) :
    d.decode parse vmd = ([], d) := by
  unfold TraceDataDecoder.decode
  rw [if_neg (by omega)]
  simp only [decodeLoop, hp]

/-- C8 counterexample: on a buffer whose first record has an unknown event
kind (header `0xF8`), `decode` returns nothing and leaves the buffer
untouched — the cursor does not advance by one byte and decoding does not
continue, even though parsing *would* succeed one byte further on. -/
theorem decoder_no_resync_cex :
    (TraceDataDecoder.mk c8buf [] 0).decode beaconRecordParse beaconValueMonitorDef
        = ([], TraceDataDecoder.mk c8buf [] 0)
      ∧ 100 ≤ c8buf.length
      ∧ (beaconRecordParse [] (c8buf.drop 1)).isSome = true := by
  refine ⟨by decide, by decide, by decide⟩

/-- Witness for C8's amended statement on the concrete corrupt buffer. -/
theorem decoder_stops_on_parse_failure_witness :
    100 ≤ (TraceDataDecoder.mk c8buf [] 0).internal_buffer.length
      ∧ beaconRecordParse [] c8buf = none
      ∧ (TraceDataDecoder.mk c8buf [] 0).decode beaconRecordParse beaconValueMonitorDef
          = ([], TraceDataDecoder.mk c8buf [] 0) :=
  ⟨by decide, by decide,
    decoder_stops_on_parse_failure beaconRecordParse beaconValueMonitorDef
      (TraceDataDecoder.mk c8buf [] 0) (by decide) (by decide)⟩

/-- C10 counterexample: a decoder holding 99 unread bytes of complete
well-formed records yields nothing, yet feeding a *single* further byte —
not at least 100 — brings the buffer to the 100-byte gate and the next
`decode` yields a trailing event. -/
theorem decode_one_more_byte_cex :
    c10rest.internal_buffer.length = 99
      ∧ c10rest.decode beaconRecordParse beaconValueMonitorDef = ([], c10rest)
      ∧ ((c10rest.feed [0]).decode beaconRecordParse beaconValueMonitorDef).1
          = [(0, Beacon.EventPayload.MonitorEndCore0)] := by
  refine ⟨by decide, by decide, by decide⟩

/-- C10 (amended): `decode` yields nothing while fewer than 100 bytes are
buffered, and stops as soon as fewer than 100 unread bytes remain — whatever
complete records the remainder may hold; such trailing records are decoded
again as soon as the total buffered bytes reach 100, i.e. after feeding
`100 - remaining` further bytes (possibly a single byte), not after 100. -/
theorem decode_hundred_byte_threshold {α : Type} (parse : RecordParser α)
    (vmd : α → Option (Nat × Nat)) (d : TraceDataDecoder) :
    (d.internal_buffer.length < 100 → d.decode parse vmd = ([], d))
      ∧ (∀ timedelta payload consumed,
          100 ≤ d.internal_buffer.length →
          parse d.monitors d.internal_buffer = some ((timedelta, payload), consumed) →
          d.internal_buffer.length - consumed < 100 →
          (d.decode parse vmd).1 = [(d.last_timestamp + timedelta, payload)]
            ∧ (d.decode parse vmd).2.internal_buffer
              = d.internal_buffer.drop consumed)
      ∧ (∀ (extra : List Nat) timedelta payload consumed,
          100 ≤ d.internal_buffer.length + extra.length →
          parse d.monitors (d.internal_buffer ++ extra)
            = some ((timedelta, payload), consumed) →
          (d.internal_buffer ++ extra).length - consumed < 100 →
          ((d.feed extra).decode parse vmd).1
            = [(d.last_timestamp + timedelta, payload)]) := by
  refine ⟨?_, ?_, ?_⟩
  · intro h
    unfold TraceDataDecoder.decode
    rw [if_pos h]
  · intro timedelta payload consumed h100 hp hrem
    have hlen : (d.internal_buffer.drop consumed).length < 100 := by
      rw [List.length_drop]
      omega
    unfold TraceDataDecoder.decode
    rw [if_neg (by omega)]
    simp only [decodeLoop, hp, hlen, if_pos, List.nil_append]
    exact ⟨trivial, trivial⟩
  · intro extra timedelta payload consumed hge hp hrem
    have hlen : ((d.internal_buffer ++ extra).drop consumed).length < 100 := by
      rw [List.length_drop]
      omega
    have hfull : ¬((d.internal_buffer ++ extra).length < 100) := by
      rw [List.length_append]
      omega
    unfold TraceDataDecoder.feed TraceDataDecoder.decode
    rw [if_neg hfull]
    simp only [decodeLoop, hp, hlen, if_pos, List.nil_append]

/-- Witness for C10's amended statement: on the concrete 102-byte buffer of
complete records the first record is decoded and 99 well-formed bytes remain
buffered undecoded; feeding one further byte to the 99-byte remainder makes
`decode` yield the trailing event. -/
theorem decode_hundred_byte_threshold_witness :
    ((100 ≤ (TraceDataDecoder.mk c10buf [] 0).internal_buffer.length
        ∧ beaconRecordParse [] c10buf
            = some ((0, Beacon.EventPayload.MonitorEndCore0), 3)
        ∧ (TraceDataDecoder.mk c10buf [] 0).internal_buffer.length - 3 < 100)
      ∧ (((TraceDataDecoder.mk c10buf [] 0).decode beaconRecordParse
            beaconValueMonitorDef).1 = [(0, Beacon.EventPayload.MonitorEndCore0)]
          ∧ ((TraceDataDecoder.mk c10buf [] 0).decode beaconRecordParse
              beaconValueMonitorDef).2.internal_buffer = c10buf.drop 3))
      ∧ ((100 ≤ c10rest.internal_buffer.length + ([0] : List Nat).length
          ∧ beaconRecordParse [] (c10rest.internal_buffer ++ [0])
              = some ((0, Beacon.EventPayload.MonitorEndCore0), 3)
          ∧ (c10rest.internal_buffer ++ [0]).length - 3 < 100)
        ∧ ((c10rest.feed [0]).decode beaconRecordParse
            beaconValueMonitorDef).1 = [(0, Beacon.EventPayload.MonitorEndCore0)]) :=
  ⟨⟨⟨by decide, by decide, by decide⟩,
    (decode_hundred_byte_threshold beaconRecordParse beaconValueMonitorDef
      (TraceDataDecoder.mk c10buf [] 0)).2.1 0 Beacon.EventPayload.MonitorEndCore0 3
      (by decide) (by decide) (by decide)⟩,
   ⟨⟨by decide, by decide, by decide⟩,
    (decode_hundred_byte_threshold beaconRecordParse beaconValueMonitorDef
      c10rest).2.2 [0] 0 Beacon.EventPayload.MonitorEndCore0 3
      (by decide) (by decide) (by decide)⟩⟩


/-! ## C6: Complete-event durations for balanced monitor pairs -/

theorem updateFirstValue_none_of {β γ : Type} (p : β → Bool) (f : β → β × γ)
    (l : List (Nat × β)) (h : ∀ x ∈ l, p x.2 = false) :
    updateFirstValue p f l = none := by
  induction l with
  | nil => rfl
  | cons a rest ih =>
    have ha : p a.2 = false := h a (by simp)
    simp [updateFirstValue, ha, ih (fun x hx => h x (by simp [hx]))]

/-- C6 counterexample: a bare-core monitor opened at 1000 µs and closed at
1100 µs is emitted as a `Complete` with duration 70 µs — the `monitor_end`
bare-core path subtracts 30 from the `u64` duration, so it is not exactly
`end_ts - start_ts`. -/
theorem bare_core_monitor_duration_cex :
    (((CoreTracing.new 0).monitor_start "m" 1000).monitor_end 1100).out
        = [TracingEvent.Complete "m" (some "code_monitor") (u32MAX - 1) 1 1000 70]
      ∧ (70 : Nat) ≠ 1100 - 1000 := by
  refine ⟨by decide, by decide⟩

/-- C6 (amended): for a balanced start/end pair with no intervening
preemption, the emitted `Complete` has `ts` equal to the start timestamp;
its `duration_us` is exactly `end_ts - start_ts` when the monitor is
attributed to a polling task, but `end_ts - start_ts - 30` on the bare-core
(no running executor) path. -/
theorem monitor_complete_duration :
    (∀ (t : TaskTracing) (name : String) (t1 t2 : Nat),
        t1 ≤ t2 → t2 - t1 < 2 ^ 64 →
        ((t.on_monitor_start name t1).on_monitor_end t2).out
          = t.out ++ [TracingEvent.Complete name (some "code_monitor")
              t.executor_id t.task_id t1 (t2 - t1)])
      ∧ (∀ (c : CoreTracing) (name : String) (t1 t2 : Nat),
          (∀ p ∈ c.executors, (Prod.snd p).is_running = false) →
          t1 ≤ t2 → 30 ≤ t2 - t1 → t2 - t1 < 2 ^ 64 →
          ((c.monitor_start name t1).monitor_end t2).out
            = c.out ++ [TracingEvent.Complete name (some "code_monitor")
                (u32MAX - 1) c.tid t1 (t2 - t1 - 30)]) := by
  constructor
  · intro t name t1 t2 hle hlt
    have hdur : durUs t1 t2 = t2 - t1 := by
      unfold durUs
      omega
    simp [TaskTracing.on_monitor_start, TaskTracing.on_monitor_end,
      TaskTracing.send, TaskTracing.monitorComplete, hdur]
  · intro c name t1 t2 hrun hle h30 hlt
    have hdur : u64_sub (durUs t1 t2) 30 = t2 - t1 - 30 := by
      unfold u64_sub durUs
      omega
    have hnone1 : updateFirstValue (fun e => e.is_running)
        (fun e => (e.on_monitor_start name t1, ())) c.executors = none :=
      updateFirstValue_none_of _ _ _ (fun x hx => hrun x hx)
    have hnone2 : updateFirstValue (fun e => e.is_running)
        (fun e => (e.on_monitor_end t2, ())) c.executors = none :=
      updateFirstValue_none_of _ _ _ (fun x hx => hrun x hx)
    simp [CoreTracing.monitor_start, CoreTracing.monitor_end, hnone1, hnone2,
      CoreTracing.send, CoreTracing.monitorComplete, CoreTracing.tid, hdur]

/-- Witness for C6's amended statement at concrete tasks/cores/timestamps. -/
theorem monitor_complete_duration_witness :
    (100 ≤ (250 : Nat) ∧ (250 : Nat) - 100 < 2 ^ 64
        ∧ (((TaskTracing.new_spawned 0 1 0).on_monitor_start "w" 100).on_monitor_end 250).out
          = (TaskTracing.new_spawned 0 1 0).out
            ++ [TracingEvent.Complete "w" (some "code_monitor") 0 1 100 150])
      ∧ ((((CoreTracing.new 0).monitor_start "w" 100).monitor_end 250).out
          = (CoreTracing.new 0).out
            ++ [TracingEvent.Complete "w" (some "code_monitor") (u32MAX - 1) 1 100 120]) :=
  ⟨⟨by decide, by decide,
      monitor_complete_duration.1 (TaskTracing.new_spawned 0 1 0) "w" 100 250
        (by decide) (by decide)⟩,
    monitor_complete_duration.2 (CoreTracing.new 0) "w" 100 250
      (by intro p hp; simp [CoreTracing.new] at hp) (by decide) (by decide) (by decide)⟩

/-! ## C4: preemption and resume of a task's monitor stack -/

theorem preemptFold_fields (l : List (String × Nat)) (t : TaskTracing) (ts : Nat) :
    (l.foldl (fun acc m =>
        { acc.send (acc.monitorComplete m.1 m.2 ts) with
          preempted_monitors := m.1 :: acc.preempted_monitors }) t).state = t.state
      ∧ (l.foldl (fun acc m =>
          { acc.send (acc.monitorComplete m.1 m.2 ts) with
            preempted_monitors := m.1 :: acc.preempted_monitors }) t).current_monitors
        = t.current_monitors
      ∧ (l.foldl (fun acc m =>
          { acc.send (acc.monitorComplete m.1 m.2 ts) with
            preempted_monitors := m.1 :: acc.preempted_monitors }) t).preempted_monitors
        = (l.map Prod.fst).reverse ++ t.preempted_monitors := by
  induction l generalizing t with
  | nil => exact ⟨rfl, rfl, rfl⟩
  | cons m rest ih =>
    simp only [List.foldl_cons]
    obtain ⟨h1, h2, h3⟩ := ih
      ({ t.send (t.monitorComplete m.1 m.2 ts) with
          preempted_monitors := m.1 :: t.preempted_monitors })
    exact ⟨h1.trans rfl, h2.trans rfl, h3.trans (by simp)⟩

theorem on_preempted_running (t : TaskTracing) (t1 e : Nat)
    (hrun : t.state = TaskState.Running) :
    (t.on_preempted t1 e).1.state = TaskState.Preempted e
      ∧ (t.on_preempted t1 e).1.current_monitors = []
      ∧ (t.on_preempted t1 e).1.preempted_monitors
        = (t.current_monitors.map Prod.fst).reverse ++ t.preempted_monitors
      ∧ (t.on_preempted t1 e).2 = true := by
  unfold TaskTracing.on_preempted
  rw [hrun]
  obtain ⟨h1, h2, h3⟩ := preemptFold_fields
    (t.transition_to (TaskState.Preempted e) t1).current_monitors
    (t.transition_to (TaskState.Preempted e) t1) t1
  refine ⟨?_, rfl, ?_, rfl⟩
  · exact h1.trans (task_transition_state t (TaskState.Preempted e) t1)
  · exact h3.trans
      (by rw [task_transition_current, task_transition_preempted])

theorem on_resumed_preempted (t : TaskTracing) (t2 e : Nat)
    (hpre : t.state = TaskState.Preempted e) :
    (t.on_resumed t2).1.state = TaskState.Running
      ∧ (t.on_resumed t2).1.current_monitors
        = t.current_monitors ++ t.preempted_monitors.map (fun name => (name, t2))
      ∧ (t.on_resumed t2).1.preempted_monitors = []
      ∧ (t.on_resumed t2).2 = true := by
  unfold TaskTracing.on_resumed
  rw [hpre]
  refine ⟨task_transition_state t TaskState.Running t2, ?_, rfl, rfl⟩
  show (t.transition_to TaskState.Running t2).current_monitors
      ++ (t.transition_to TaskState.Running t2).preempted_monitors.map
          (fun name => (name, t2)) = _
  rw [task_transition_current, task_transition_preempted]

/-- C4 counterexample: a running task with nested monitors "a" (outer,
opened at 10) and "b" (inner, opened at 20) is preempted at 30 and resumed
at 40; its restored monitor stack is `[("b", 40), ("a", 40)]` — the nesting
order is reversed, not restored. -/
theorem preempt_resume_order_cex :
    c4Task.state = TaskState.Running
      ∧ c4Task.current_monitors = [("a", 10), ("b", 20)]
      ∧ c4Resumed.state = TaskState.Running
      ∧ c4Resumed.current_monitors = [("b", 40), ("a", 40)]
      ∧ c4Resumed.current_monitors ≠ [("a", 40), ("b", 40)] := by
  refine ⟨by decide, by decide, by decide, by decide, by decide⟩

/-- C4 (amended): after a preempt at `t1` and a resume at `t2` with no
desynchronization in between, the task is `Running` again and its open
monitor stack holds the same names, each re-opened with `t2` as its new
start — but in **reversed** nesting order. -/
theorem preempt_resume_restores_reversed (t : TaskTracing) (t1 t2 e : Nat)
    (hrun : t.state = TaskState.Running) (hpre : t.preempted_monitors = []) :
    ((t.on_preempted t1 e).1.on_resumed t2).1.state = TaskState.Running
      ∧ ((t.on_preempted t1 e).1.on_resumed t2).1.current_monitors
        = (t.current_monitors.map Prod.fst).reverse.map (fun name => (name, t2)) := by
  obtain ⟨hs, hc, hp, _⟩ := on_preempted_running t t1 e hrun
  obtain ⟨hs2, hc2, _, _⟩ := on_resumed_preempted (t.on_preempted t1 e).1 t2 e hs
  refine ⟨hs2, ?_⟩
  rw [hc2, hc, hp, hpre, List.append_nil, List.nil_append]

/-- Witness for C4's amended statement on the concrete two-monitor task. -/
theorem preempt_resume_restores_reversed_witness :
    (c4Task.state = TaskState.Running ∧ c4Task.preempted_monitors = [])
      ∧ (((c4Task.on_preempted 30 1).1.on_resumed 40).1.state = TaskState.Running
          ∧ ((c4Task.on_preempted 30 1).1.on_resumed 40).1.current_monitors
            = (c4Task.current_monitors.map Prod.fst).reverse.map
                (fun name => (name, 40))) :=
  ⟨⟨by decide, by decide⟩,
    preempt_resume_restores_reversed c4Task 30 40 1 (by decide) (by decide)⟩


/-! ## C5: at most one running task per executor -/

theorem runningTasks_cons (k : Nat) (t : TaskTracing) (l : List (Nat × TaskTracing)) :
    runningTasks ((k, t) :: l)
      = (if t.state.isRunning then 1 else 0) + runningTasks l := by
  by_cases h : t.state.isRunning <;>
    simp [runningTasks, List.filter_cons, h, Nat.add_comm]

theorem runningTasks_append_single (l : List (Nat × TaskTracing)) (k : Nat)
    (t : TaskTracing) :
    runningTasks (l ++ [(k, t)])
      = runningTasks l + (if t.state.isRunning then 1 else 0) := by
  induction l with
  | nil =>
    rw [List.nil_append, runningTasks_cons]
    have : runningTasks ([] : List (Nat × TaskTracing)) = 0 := rfl
    omega
  | cons a l ih =>
    obtain ⟨k', v⟩ := a
    rw [List.cons_append, runningTasks_cons, runningTasks_cons, ih]
    omega

theorem runningTasks_zero_of (l : List (Nat × TaskTracing))
    (h : ∀ x ∈ l, x.2.state.isRunning = false) : runningTasks l = 0 := by
  induction l with
  | nil => rfl
  | cons a l ih =>
    obtain ⟨k, v⟩ := a
    rw [runningTasks_cons, h (k, v) (by simp), ih (fun x hx => h x (by simp [hx]))]
    simp

theorem runningTasks_any_false (l : List (Nat × TaskTracing))
    (h : l.any (fun p => p.2.state.isRunning) = false) : runningTasks l = 0 := by
  apply runningTasks_zero_of
  intro x hx
  have := List.any_eq_false.mp h x hx
  simpa using this

theorem runningTasks_modify_eq (l : List (Nat × TaskTracing)) (k : Nat)
    (f : TaskTracing → TaskTracing × Bool)
    (h : ∀ v, ((f v).1).state.isRunning = v.state.isRunning) :
    runningTasks (modifyValue l k f).1 = runningTasks l := by
  induction l with
  | nil => rfl
  | cons a l ih =>
    obtain ⟨k', v⟩ := a
    by_cases hk : k' = k
    · rcases hfv : f v with ⟨v', ok⟩
      have hv : v'.state.isRunning = v.state.isRunning := by
        have hh := h v
        rw [hfv] at hh
        exact hh
      simp only [modifyValue, if_pos hk, hfv]
      rw [runningTasks_cons, runningTasks_cons, hv]
    · rcases hrec : modifyValue l k f with ⟨l2, ok⟩
      simp only [modifyValue, if_neg hk, hrec]
      rw [runningTasks_cons, runningTasks_cons]
      have hh := ih
      rw [hrec] at hh
      rw [hh]

theorem runningTasks_modify_notRunning (l : List (Nat × TaskTracing)) (k : Nat)
    (f : TaskTracing → TaskTracing × Bool)
    (h : ∀ v, ((f v).1).state.isRunning = false) :
    runningTasks (modifyValue l k f).1 ≤ runningTasks l := by
  induction l with
  | nil => exact Nat.le_refl 0
  | cons a l ih =>
    obtain ⟨k', v⟩ := a
    by_cases hk : k' = k
    · rcases hfv : f v with ⟨v', ok⟩
      have hv : v'.state.isRunning = false := by
        have hh := h v
        rw [hfv] at hh
        exact hh
      simp only [modifyValue, if_pos hk, hfv]
      rw [runningTasks_cons, runningTasks_cons, hv]
      by_cases hvv : v.state.isRunning <;> simp [hvv]
    · rcases hrec : modifyValue l k f with ⟨l2, ok⟩
      simp only [modifyValue, if_neg hk, hrec]
      rw [runningTasks_cons, runningTasks_cons]
      have hh : runningTasks l2 ≤ runningTasks l := by
        have h0 := ih
        rw [hrec] at h0
        exact h0
      by_cases hvv : v.state.isRunning <;> simp [hvv] <;> omega

theorem runningTasks_modify_le (l : List (Nat × TaskTracing)) (k : Nat)
    (f : TaskTracing → TaskTracing × Bool) :
    runningTasks (modifyValue l k f).1 ≤ runningTasks l + 1 := by
  induction l with
  | nil => exact Nat.zero_le 1
  | cons a l ih =>
    obtain ⟨k', v⟩ := a
    by_cases hk : k' = k
    · rcases hfv : f v with ⟨v', ok⟩
      simp only [modifyValue, if_pos hk, hfv]
      rw [runningTasks_cons, runningTasks_cons]
      by_cases hvv : v.state.isRunning <;> by_cases hvv2 : v'.state.isRunning <;>
        simp [hvv, hvv2] <;> omega
    · rcases hrec : modifyValue l k f with ⟨l2, ok⟩
      simp only [modifyValue, if_neg hk, hrec]
      rw [runningTasks_cons, runningTasks_cons]
      have hh : runningTasks l2 ≤ runningTasks l + 1 := by
        have h0 := ih
        rw [hrec] at h0
        exact h0
      by_cases hvv : v.state.isRunning <;> simp [hvv] <;> omega

theorem modifyValue_fail_eq (l : List (Nat × TaskTracing)) (k : Nat)
    (f : TaskTracing → TaskTracing × Bool)
    (hid : ∀ v, (f v).2 = false → (f v).1 = v)
    (h : (modifyValue l k f).2 = false) : (modifyValue l k f).1 = l := by
  induction l with
  | nil => rfl
  | cons a l ih =>
    obtain ⟨k', v⟩ := a
    by_cases hk : k' = k
    · rcases hfv : f v with ⟨v', ok⟩
      simp only [modifyValue, if_pos hk, hfv] at h ⊢
      have hh := hid v
      rw [hfv] at hh
      have hv' : v' = v := hh h
      rw [hv']
    · rcases hrec : modifyValue l k f with ⟨l2, ok⟩
      simp only [modifyValue, if_neg hk, hrec] at h ⊢
      have hh : l2 = l := by
        have h0 := ih
        rw [hrec] at h0
        exact h0 h
      rw [hh]

theorem updateFirstValue_none_all {β γ : Type} (p : β → Bool) (f : β → β × γ)
    (l : List (Nat × β)) (h : updateFirstValue p f l = none) :
    ∀ x ∈ l, p x.2 = false := by
  induction l with
  | nil => intro x hx; cases hx
  | cons a l ih =>
    intro x hx
    obtain ⟨k, v⟩ := a
    by_cases hp : p v
    · rcases hfv : f v with ⟨v', r⟩
      simp [updateFirstValue, hp, hfv] at h
    · rcases hrec : updateFirstValue p f l with _ | pr
      · rcases List.mem_cons.mp hx with hx1 | hx1
        · subst hx1; simpa using hp
        · exact ih hrec x hx1
      · simp [updateFirstValue, hp, hrec] at h

theorem updateFirstValue_running_kill (f : TaskTracing → TaskTracing × Bool)
    (l : List (Nat × TaskTracing)) (l' : List (Nat × TaskTracing)) (r : Bool)
    (hk : ∀ v, ((f v).1).state.isRunning = false)
    (h : updateFirstValue (fun t => t.state.isRunning) f l = some (l', r)) :
    runningTasks l = runningTasks l' + 1 := by
  induction l generalizing l' r with
  | nil => cases h
  | cons a l ih =>
    obtain ⟨k, v⟩ := a
    by_cases hv : v.state.isRunning
    · rcases hfv : f v with ⟨v', ok⟩
      simp only [updateFirstValue, if_pos hv, hfv, Option.some.injEq,
        Prod.mk.injEq] at h
      have hv' : v'.state.isRunning = false := by
        have hh := hk v
        rw [hfv] at hh
        exact hh
      rw [← h.1, runningTasks_cons, runningTasks_cons, hv', hv]
      simp
      omega
    · rcases hrec : updateFirstValue (fun t => t.state.isRunning) f l with _ | pr
      · simp [updateFirstValue, hv, hrec] at h
      · obtain ⟨l2, r2⟩ := pr
        simp only [updateFirstValue, if_neg hv, hrec, Option.map_some',
          Option.some.injEq, Prod.mk.injEq] at h
        rw [← h.1, runningTasks_cons, runningTasks_cons, ih l2 r2 hrec]
        omega

theorem updateFirstValue_count_le {γ : Type} (p : TaskTracing → Bool)
    (f : TaskTracing → TaskTracing × γ) (l l' : List (Nat × TaskTracing)) (r : γ)
    (h : updateFirstValue p f l = some (l', r)) :
    runningTasks l' ≤ runningTasks l + 1 := by
  induction l generalizing l' r with
  | nil => cases h
  | cons a l ih =>
    obtain ⟨k, v⟩ := a
    by_cases hv : p v
    · rcases hfv : f v with ⟨v', ok⟩
      simp only [updateFirstValue, if_pos hv, hfv, Option.some.injEq,
        Prod.mk.injEq] at h
      rw [← h.1, runningTasks_cons, runningTasks_cons]
      by_cases hvv : v.state.isRunning <;>
        by_cases hvv2 : ((f v).1).state.isRunning <;>
        simp [hvv, hfv] at hvv2 ⊢ <;> simp [hvv2] <;> omega
    · rcases hrec : updateFirstValue p f l with _ | pr
      · simp [updateFirstValue, hv, hrec] at h
      · obtain ⟨l2, r2⟩ := pr
        simp only [updateFirstValue, if_neg hv, hrec, Option.map_some',
          Option.some.injEq, Prod.mk.injEq] at h
        rw [← h.1, runningTasks_cons, runningTasks_cons]
        have hh := ih l2 r2 hrec
        omega

theorem updateFirstValue_fail_eq (p : TaskTracing → Bool)
    (f : TaskTracing → TaskTracing × Bool) (l l' : List (Nat × TaskTracing))
    (hid : ∀ v, (f v).2 = false → (f v).1 = v)
    (h : updateFirstValue p f l = some (l', false)) : l' = l := by
  induction l generalizing l' with
  | nil => cases h
  | cons a l ih =>
    obtain ⟨k, v⟩ := a
    by_cases hv : p v
    · rcases hfv : f v with ⟨v', ok⟩
      simp only [updateFirstValue, if_pos hv, hfv, Option.some.injEq,
        Prod.mk.injEq] at h
      have hh := hid v
      rw [hfv] at hh
      have hv' : v' = v := hh h.2
      rw [← h.1, hv']
    · rcases hrec : updateFirstValue p f l with _ | pr
      · simp [updateFirstValue, hv, hrec] at h
      · obtain ⟨l2, r2⟩ := pr
        simp only [updateFirstValue, if_neg hv, hrec, Option.map_some',
          Option.some.injEq, Prod.mk.injEq] at h
        rw [h.2] at hrec
        rw [← h.1, ih l2 hrec]


/-! Task-state classification of the task handlers. -/

theorem sendFold_state (l : List (String × Nat)) (t : TaskTracing) (ts : Nat) :
    (l.foldl (fun acc m => acc.send (acc.monitorComplete m.1 m.2 ts)) t).state
      = t.state := by
  induction l generalizing t with
  | nil => rfl
  | cons m rest ih => exact (ih _).trans rfl

theorem on_ready_isRunning (t : TaskTracing) (ts : Nat) :
    ((t.on_ready ts).1).state.isRunning = t.state.isRunning := by
  cases h : t.state <;>
    simp [TaskTracing.on_ready, h, task_transition_state, TaskState.isRunning]

theorem on_exec_end_notRunning (t : TaskTracing) (ts : Nat) :
    ((t.on_exec_end ts).1).state.isRunning = false := by
  by_cases hr : t.reawoken_while_running <;>
    cases h : t.state <;>
      simp [TaskTracing.on_exec_end, h, hr, task_transition_state,
        TaskState.isRunning]

theorem on_end_notRunning (t : TaskTracing) (ts : Nat) :
    ((t.on_end ts).1).state.isRunning = false := by
  cases h : t.state <;>
    simp [TaskTracing.on_end, h, task_transition_state, TaskState.isRunning]

theorem on_preempted_notRunning (t : TaskTracing) (ts e : Nat) :
    ((t.on_preempted ts e).1).state.isRunning = false := by
  cases h : t.state
  case Running =>
    have hst := (on_preempted_running t ts e h).1
    rw [hst]
    rfl
  all_goals simp [TaskTracing.on_preempted, h, TaskState.isRunning]

theorem on_exec_begin_fail_id (t : TaskTracing) (ts : Nat) :
    (t.on_exec_begin ts).2 = false → (t.on_exec_begin ts).1 = t := by
  cases h : t.state <;> simp [TaskTracing.on_exec_begin, h]

theorem on_exec_end_fail_id (t : TaskTracing) (ts : Nat) :
    (t.on_exec_end ts).2 = false → (t.on_exec_end ts).1 = t := by
  cases h : t.state <;> simp [TaskTracing.on_exec_end, h]

theorem on_end_fail_id (t : TaskTracing) (ts : Nat) :
    (t.on_end ts).2 = false → (t.on_end ts).1 = t := by
  cases h : t.state <;> simp [TaskTracing.on_end, h]

theorem on_preempted_fail_id (t : TaskTracing) (ts e : Nat) :
    (t.on_preempted ts e).2 = false → (t.on_preempted ts e).1 = t := by
  cases h : t.state <;> simp [TaskTracing.on_preempted, h]

theorem on_resumed_fail_id (t : TaskTracing) (ts : Nat) :
    (t.on_resumed ts).2 = false → (t.on_resumed ts).1 = t := by
  cases h : t.state <;> simp [TaskTracing.on_resumed, h]

theorem on_monitor_start_state (t : TaskTracing) (n : String) (ts : Nat) :
    (t.on_monitor_start n ts).state = t.state := rfl

theorem on_monitor_end_state (t : TaskTracing) (ts : Nat) :
    (t.on_monitor_end ts).state = t.state := by
  unfold TaskTracing.on_monitor_end
  cases h : t.current_monitors.getLast? with
  | none => rfl
  | some m => rfl

theorem on_drop_state (t : TaskTracing) (ts : Nat) :
    (t.on_drop ts).state = t.state := by
  unfold TaskTracing.on_drop
  exact (sendFold_state _ _ _).trans rfl

theorem on_desynchronize_notRunning (t : TaskTracing) (ts : Nat) :
    ((t.on_desynchronize ts).state).isRunning = false := by
  have h : (t.on_desynchronize ts).state = TaskState.StreamDesynchronized :=
    (sendFold_state _ _ _).trans (task_transition_state t _ ts)
  rw [h]
  rfl

/-! StrongInv preservation helpers. -/

theorem strongInv_mk (s : ExecutorTracing) (l : List (Nat × TaskTracing))
    (hc : runningTasks l ≤ 1)
    (hp : ∀ b p, s.current_state = ExecutorState.Preempted b p → runningTasks l = 0) :
    StrongInv { s with tasks := l } :=
  ⟨hc, hp⟩

theorem strongInv_transition (s : ExecutorTracing) (st : ExecutorState) (ts : Nat)
    (hc : runningTasks s.tasks ≤ 1)
    (hp : ∀ b p, st = ExecutorState.Preempted b p → runningTasks s.tasks = 0) :
    StrongInv (s.transition_to st ts) := by
  constructor
  · rw [exec_transition_tasks]
    exact hc
  · intro b p h
    rw [exec_transition_tasks]
    exact hp b p ((exec_transition_state s st ts).symm.trans h)


theorem runningTasks_map_zero (l : List (Nat × TaskTracing))
    (g : TaskTracing → TaskTracing) (h : ∀ t, ((g t).state).isRunning = false) :
    runningTasks (l.map (fun p : Nat × TaskTracing => (p.1, g p.2))) = 0 := by
  apply runningTasks_zero_of
  intro x hx
  obtain ⟨p, _, hpx⟩ := List.mem_map.mp hx
  rw [← hpx]
  exact h p.2

theorem runningTasks_map_eq (l : List (Nat × TaskTracing))
    (g : TaskTracing → TaskTracing) (h : ∀ t, (g t).state = t.state) :
    runningTasks (l.map (fun p : Nat × TaskTracing => (p.1, g p.2))) = runningTasks l := by
  induction l with
  | nil => rfl
  | cons a l ih =>
    obtain ⟨k, v⟩ := a
    rw [List.map_cons, runningTasks_cons, runningTasks_cons, ih, h v]

theorem exec_on_desynchronize_tasks (s : ExecutorTracing) (ts : Nat) :
    (s.on_desynchronize ts).tasks
      = s.tasks.map (fun q : Nat × TaskTracing => (q.1, q.2.on_desynchronize ts)) := by
  show (s.transition_to ExecutorState.StreamDesynchronized ts).tasks.map
      (fun q : Nat × TaskTracing => (q.1, q.2.on_desynchronize ts)) = _
  rw [exec_transition_tasks]

theorem exec_on_drop_tasks (s : ExecutorTracing) (ts : Nat) :
    (s.on_drop ts).tasks
      = s.tasks.map (fun q : Nat × TaskTracing => (q.1, q.2.on_drop ts)) := rfl

theorem toExecutorState_ne_preempted (prev : PreemptedPrevState)
    (b : Nat) (p : PreemptedPrevState) :
    prev.toExecutorState ≠ ExecutorState.Preempted b p := by
  cases prev <;> simp [PreemptedPrevState.toExecutorState]

theorem preemptTasksAnd_preserves (s : ExecutorTracing)
    (prev : PreemptedPrevState) (ts e' : Nat) (h1 : runningTasks s.tasks ≤ 1)
    (h2 : ∀ b p, s.current_state = ExecutorState.Preempted b p →
      runningTasks s.tasks = 0) :
    StrongInv (s.preemptTasksAnd prev ts e').1 := by
  unfold ExecutorTracing.preemptTasksAnd
  rcases hu : updateFirstValue (fun t => t.state.isRunning)
      (fun t => t.on_preempted ts e') s.tasks with _ | pr
  · rw [hu]
    have hz : runningTasks s.tasks = 0 :=
      runningTasks_zero_of _ (updateFirstValue_none_all _ _ _ hu)
    exact strongInv_transition s _ ts (by omega) (fun b p _ => hz)
  · obtain ⟨tasks', ok⟩ := pr
    rw [hu]
    cases ok with
    | true =>
      have hkill : runningTasks s.tasks = runningTasks tasks' + 1 :=
        updateFirstValue_running_kill _ _ _ _
          (fun v => on_preempted_notRunning v ts e') hu
      exact strongInv_transition { s with tasks := tasks' } _ ts
        (show runningTasks tasks' ≤ 1 by omega)
        (fun b p _ => show runningTasks tasks' = 0 by omega)
    | false =>
      have hfe : tasks' = s.tasks := updateFirstValue_fail_eq _ _ _ _
        (fun v => on_preempted_fail_id v ts e') (by rw [hu])
      subst hfe
      exact ⟨h1, h2⟩

theorem execStep_preserves (s : ExecutorTracing) (e : ExecEvent)
    (h : StrongInv s) : StrongInv (execStep s e) := by
  obtain ⟨h1, h2⟩ := h
  cases e with
  | taskNewSpawned task_id ts =>
    show StrongInv (s.on_task_new_spawned task_id ts).1
    unfold ExecutorTracing.on_task_new_spawned
    split
    · exact ⟨h1, h2⟩
    · refine strongInv_mk s _ ?_ ?_
      · rw [runningTasks_append_single]
        simpa [TaskTracing.new_spawned, TaskTracing.newWith, TaskState.isRunning]
          using h1
      · intro b p hp
        rw [runningTasks_append_single]
        simpa [TaskTracing.new_spawned, TaskTracing.newWith, TaskState.isRunning]
          using h2 b p hp
  | taskReady task_id ts =>
    show StrongInv (s.on_task_ready task_id ts).1
    unfold ExecutorTracing.on_task_ready
    have heq := runningTasks_modify_eq s.tasks task_id (fun t => t.on_ready ts)
      (fun v => on_ready_isRunning v ts)
    split
    · refine strongInv_mk s _ ?_ ?_
      · rw [heq]; exact h1
      · intro b p hp; rw [heq]; exact h2 b p hp
    · refine strongInv_mk s _ ?_ ?_
      · rw [runningTasks_append_single]
        simpa [TaskTracing.new_ready, TaskTracing.newWith, TaskState.isRunning]
          using h1
      · intro b p hp
        rw [runningTasks_append_single]
        simpa [TaskTracing.new_ready, TaskTracing.newWith, TaskState.isRunning]
          using h2 b p hp
  | taskExecBegin task_id ts =>
    show StrongInv (s.on_task_exec_begin task_id ts).1
    unfold ExecutorTracing.on_task_exec_begin
    split
    · exact ⟨h1, h2⟩
    · next hany =>
      have hz : runningTasks s.tasks = 0 :=
        runningTasks_any_false _ (by simpa using hany)
      split
      · rcases hmv : modifyValue s.tasks task_id (fun t => t.on_exec_begin ts)
          with ⟨tasks', ok⟩
        cases ok with
        | true =>
          have hb : runningTasks tasks' ≤ runningTasks s.tasks + 1 := by
            have h0 := runningTasks_modify_le s.tasks task_id
              (fun t => t.on_exec_begin ts)
            rw [hmv] at h0
            exact h0
          exact strongInv_transition { s with tasks := tasks' } _ ts
            (show runningTasks tasks' ≤ 1 by omega)
            (fun b p hp => ExecutorState.noConfusion hp)
        | false =>
          have hfe : tasks' = s.tasks := by
            have h0 := modifyValue_fail_eq s.tasks task_id
              (fun t => t.on_exec_begin ts) (fun v => on_exec_begin_fail_id v ts)
              (by rw [hmv])
            rw [hmv] at h0
            exact h0
          subst hfe
          exact ⟨h1, h2⟩
      · apply strongInv_transition
        · rw [runningTasks_append_single]
          simp [TaskTracing.new_exec_begin, TaskTracing.newWith, TaskState.isRunning]
          omega
        · exact fun b p hp => ExecutorState.noConfusion hp
  | taskExecEnd ts =>
    show StrongInv (s.on_task_exec_end ts).1
    unfold ExecutorTracing.on_task_exec_end
    split
    · next task_id hst =>
      split
      · rcases hmv : modifyValue s.tasks task_id (fun t => t.on_exec_end ts)
          with ⟨tasks', ok⟩
        have hdec : runningTasks tasks' ≤ runningTasks s.tasks := by
          have h0 := runningTasks_modify_notRunning s.tasks task_id
            (fun t => t.on_exec_end ts) (fun v => on_exec_end_notRunning v ts)
          rw [hmv] at h0
          exact h0
        cases ok with
        | true =>
          exact strongInv_transition { s with tasks := tasks' } _ ts
            (show runningTasks tasks' ≤ 1 by omega)
            (fun b p hp => ExecutorState.noConfusion hp)
        | false =>
          refine strongInv_mk s _ (by omega) ?_
          intro b p hp
          have := h2 b p hp
          omega
      · exact ⟨h1, h2⟩
    · exact ⟨h1, h2⟩
  | taskEnd ts task_id =>
    show StrongInv (s.on_task_end ts task_id).1
    unfold ExecutorTracing.on_task_end
    split
    · exact ⟨h1, h2⟩
    · split
      · next polled hst =>
        split
        · rcases hmv : modifyValue s.tasks polled (fun t => t.on_end ts)
            with ⟨tasks', ok⟩
          have hdec : runningTasks tasks' ≤ runningTasks s.tasks := by
            have h0 := runningTasks_modify_notRunning s.tasks polled
              (fun t => t.on_end ts) (fun v => on_end_notRunning v ts)
            rw [hmv] at h0
            exact h0
          refine strongInv_mk s _ (by omega) ?_
          intro b p hp
          have := h2 b p hp
          omega
        · exact ⟨h1, h2⟩
      · exact ⟨h1, h2⟩
  | pollStart ts =>
    show StrongInv (s.on_poll_start ts).1
    exact strongInv_transition s _ ts h1 (fun b p hp => ExecutorState.noConfusion hp)
  | idle ts =>
    show StrongInv (s.on_idle ts).1
    exact strongInv_transition s _ ts h1 (fun b p hp => ExecutorState.noConfusion hp)
  | preempted ts e' =>
    show StrongInv (s.on_preempted ts e').1
    unfold ExecutorTracing.on_preempted
    split
    · exact preemptTasksAnd_preserves s _ ts e' h1 h2
    · exact preemptTasksAnd_preserves s _ ts e' h1 h2
    · exact ⟨h1, h2⟩
  | resume ts =>
    show StrongInv (s.on_resume ts).1
    unfold ExecutorTracing.on_resume
    split
    · next b' prev hst =>
      have hz : runningTasks s.tasks = 0 := h2 b' prev hst
      rcases hu : updateFirstValue (fun t => t.state.isPreempted)
          (fun t => t.on_resumed ts) s.tasks with _ | pr
      · rw [hu]
        exact strongInv_transition s _ ts (by omega)
          (fun b p hp => absurd hp (toExecutorState_ne_preempted prev b p))
      · obtain ⟨tasks', ok⟩ := pr
        rw [hu]
        cases ok with
        | true =>
          have hb : runningTasks tasks' ≤ runningTasks s.tasks + 1 :=
            updateFirstValue_count_le _ _ _ _ _ hu
          exact strongInv_transition { s with tasks := tasks' } _ ts
            (show runningTasks tasks' ≤ 1 by omega)
            (fun b p hp => absurd hp (toExecutorState_ne_preempted prev b p))
        | false =>
          have hfe : tasks' = s.tasks := updateFirstValue_fail_eq _ _ _ _
            (fun v => on_resumed_fail_id v ts) (by rw [hu])
          subst hfe
          exact ⟨h1, h2⟩
    · exact ⟨h1, h2⟩
  | desynchronize ts =>
    show StrongInv (s.on_desynchronize ts)
    have hz : runningTasks (s.tasks.map
        (fun q : Nat × TaskTracing => (q.1, q.2.on_desynchronize ts))) = 0 :=
      runningTasks_map_zero _ _ (fun t => on_desynchronize_notRunning t ts)
    constructor
    · rw [exec_on_desynchronize_tasks]
      omega
    · intro b p _
      rw [exec_on_desynchronize_tasks]
      exact hz
  | monitorStart name ts =>
    show StrongInv (s.on_monitor_start name ts)
    unfold ExecutorTracing.on_monitor_start
    split
    · next task_id hst =>
      split
      · have heq := runningTasks_modify_eq s.tasks task_id
          (fun t => (t.on_monitor_start name ts, true))
          (fun v => by rw [on_monitor_start_state])
        refine strongInv_mk s _ ?_ ?_
        · rw [heq]; exact h1
        · intro b p hp; rw [heq]; exact h2 b p hp
      · exact ⟨h1, h2⟩
    · exact ⟨h1, h2⟩
  | monitorEnd ts =>
    show StrongInv (s.on_monitor_end ts)
    unfold ExecutorTracing.on_monitor_end
    split
    · next task_id hst =>
      split
      · have heq := runningTasks_modify_eq s.tasks task_id
          (fun t => (t.on_monitor_end ts, true))
          (fun v => by rw [on_monitor_end_state])
        refine strongInv_mk s _ ?_ ?_
        · rw [heq]; exact h1
        · intro b p hp; rw [heq]; exact h2 b p hp
      · exact ⟨h1, h2⟩
    · exact ⟨h1, h2⟩
  | dropEvent ts =>
    show StrongInv (s.on_drop ts)
    have heq : runningTasks (s.tasks.map
          (fun q : Nat × TaskTracing => (q.1, q.2.on_drop ts)))
        = runningTasks s.tasks :=
      runningTasks_map_eq _ _ (fun t => on_drop_state t ts)
    constructor
    · rw [exec_on_drop_tasks]
      omega
    · intro b pp hp
      rw [exec_on_drop_tasks, heq]
      exact h2 b pp hp

theorem strongInv_new_polling (executor_id state_start task_id : Nat) :
    StrongInv (ExecutorTracing.new_polling executor_id state_start task_id) := by
  constructor
  · show runningTasks
      [(task_id, TaskTracing.new_exec_begin executor_id task_id state_start)] ≤ 1
    rw [runningTasks_cons]
    simp [TaskTracing.new_exec_begin, TaskTracing.newWith, TaskState.isRunning,
      runningTasks]
  · intro b p hp
    exact ExecutorState.noConfusion hp

/-- C5: starting from any executor the engine creates (`new_polling`) and
processing any sequence of events, at most one of the executor's tracked
tasks is ever in the `Running` state (each event-handling step preserves the
invariant, including task-exec-begin, preemption, and resume). -/
theorem executor_at_most_one_running (executor_id state_start task_id : Nat)
    (evs : List ExecEvent) :
    atMostOneRunning
      (execRun (ExecutorTracing.new_polling executor_id state_start task_id) evs) := by
  suffices hgen : ∀ (s : ExecutorTracing), StrongInv s → StrongInv (execRun s evs) by
    exact (hgen _ (strongInv_new_polling executor_id state_start task_id)).1
  induction evs with
  | nil => exact fun s hs => hs
  | cons e rest ih =>
    intro s hs
    exact ih (execStep s e) (execStep_preserves s e hs)

end Host

end Rustmeter
